import Mathlib

/-!
Shallow embedding of the chart generation engine of `src/generator.js`
(class `ChartGenerator`).  JavaScript numbers are modelled as real numbers
(idealized, no floating-point rounding).  The two sources of randomness are
modelled as explicit streams of draws:

* `s : ℕ → ℝ` — the seeded stream (`this.rng()`, from `Math.seedrandom`),
  whose values lie in `[0, 1)`; it is consumed at an explicit index that is
  threaded through every function exactly in the source's evaluation order.
* `u : ℕ → ℝ` — the unseeded stream (`Math.random()`), likewise in `[0, 1)`.

`gaussianRandom` in the source retries a draw while it is exactly `0`; we
embed streams whose draws are already nonzero (a zero draw has probability
zero), so it consumes exactly two seeded draws.  The cosmetic chart id
(`chart_${Date.now()}_...`) is not modelled, but the unseeded draw it
consumes is accounted for in the stream index.  `console.log` debugging in
`generate` reads no randomness and is ignored.
-/

open Classical

noncomputable section

namespace ChartGen

/-- OHLCV candle record as produced by every generator (`open` is a Lean
keyword, hence the field name `open_`). -/
structure Candle where
  open_ : ℝ
  high : ℝ
  low : ℝ
  close : ℝ
  volume : ℝ

instance : Inhabited Candle := ⟨⟨0, 0, 0, 0, 0⟩⟩

/-- Candle of `result.data` after the lightweight-charts mapping (generator.js
line 183): the OHLCV fields verbatim plus a 1-minute time stamp. -/
structure TimedCandle where
  time : ℤ
  open_ : ℝ
  high : ℝ
  low : ℝ
  close : ℝ
  volume : ℝ

instance : Inhabited TimedCandle := ⟨⟨0, 0, 0, 0, 0, 0⟩⟩

/-- A stream of random draws, consumed at an explicit index. -/
abbrev RStream := ℕ → ℝ

/-- `this.INITIAL_MCAP` — $5k starting market cap. -/
def INITIAL_MCAP : ℝ := 5000

/-- `this.BONDING_MCAP` — $100k bonding threshold (the post-bonding ceiling). -/
def BONDING_MCAP : ℝ := 100000

/-- `random(min, max)`: `this.rng() * (max - min) + min`, reading the seeded
stream at index `i`. -/
def randomR (s : RStream) (i : ℕ) (lo hi : ℝ) : ℝ :=
  s i * (hi - lo) + lo

/-- `randomInt(min, max)`: `Math.floor(this.rng() * (max - min + 1)) + min`. -/
def randomInt (s : RStream) (i : ℕ) (lo hi : ℕ) : ℕ :=
  (⌊s i * ((hi : ℝ) - lo + 1)⌋).toNat + lo

/-- `gaussianRandom()`: Box–Muller transform on two consecutive seeded draws
`u = s i`, `v = s (i+1)` (the source's retry-on-zero loops never fire for the
nonzero streams we consider). -/
def gaussianRandom (s : RStream) (i : ℕ) : ℝ :=
  Real.sqrt (-2.0 * Real.log (s i)) * Real.cos (2.0 * Real.pi * s (i + 1))

/-- `ss.mean` of `simple-statistics`, used to initialise running volume
averages from a two-element list. -/
def ssMean (l : List ℝ) : ℝ := l.sum / l.length

/-- JavaScript `x || d` on numbers for the one place the source uses it
(`currentMcap || 1`): the fallback fires exactly on `0` (of the values a
market cap can take). -/
def jsOr (x d : ℝ) : ℝ := if x = 0 then d else x

/-- Market-phase descriptor (`this.marketPhases` entries): progress window
`[start, end_)`, directional bias and volatility multiplier. -/
structure PhaseDescriptor where
  name : String
  start : ℝ
  end_ : ℝ
  bias : ℝ
  volMult : ℝ

instance : Inhabited PhaseDescriptor := ⟨⟨"", 0, 0, 0, 0⟩⟩

/-- `this.marketPhases`: the six fixed pre-bonding phases. -/
def marketPhases : List PhaseDescriptor :=
  [ ⟨"early_accumulation", 0.0, 0.15, 0.002, 0.6⟩,
    ⟨"consolidation", 0.15, 0.35, 0.0, 0.4⟩,
    ⟨"pullback", 0.35, 0.45, -0.003, 1.3⟩,
    ⟨"recovery", 0.45, 0.65, 0.001, 1.1⟩,
    ⟨"breakout", 0.65, 0.8, 0.003, 1.4⟩,
    ⟨"final_push", 0.8, 1.0, 0.008, 1.5⟩ ]

/-- `phases.find(p => progress >= p.start && progress < p.end)`. -/
def findPhase : List PhaseDescriptor → ℝ → Option PhaseDescriptor
  | [], _ => none
  | p :: ps, progress =>
      if progress ≥ p.start ∧ progress < p.end_ then some p else findPhase ps progress

/-- Phase lookup with the source's fallback to the last phase
(`... || phases[phases.length - 1]`). -/
def phaseFor (phases : List PhaseDescriptor) (progress : ℝ) : PhaseDescriptor :=
  (findPhase phases progress).getD (phases.getLastD default)

/-- Pre-bonding volatility table `volMap` with default `0.15`
(generator.js lines 203–209). -/
def preVol (volatility : String) : ℝ :=
  if volatility = "low" then 0.08
  else if volatility = "medium" then 0.15
  else if volatility = "high" then 0.25
  else if volatility = "extreme" then 0.35
  else 0.15

/-- Mutable per-run state of the pre-bonding loop: seeded-stream index,
`currentMcap`, `shortTermMomentum`, `longTermMemory`, `volumeAvg`. -/
structure PreState where
  si : ℕ
  cur : ℝ
  shortM : ℝ
  longM : ℝ
  volAvg : ℝ

/-- The zone-aware mean-reversion term `marketMemory` of the pre-bonding loop
(generator.js lines 250–272), as a function of the step index, the total
candle count and `currentMcap`. -/
def preMarketMemory (numCandles i : ℕ) (cur : ℝ) : ℝ :=
  let expectedProgress : ℝ := (i : ℝ) / ((numCandles : ℝ) - 1)
  let zonePeak := BONDING_MCAP * 0.4
  let zoneProgress := min (expectedProgress * 1.0) 1.0
  let expectedMcap := INITIAL_MCAP + (zonePeak - INITIAL_MCAP) * zoneProgress
  let breakoutThreshold := expectedMcap * 1.5
  if cur > breakoutThreshold then 0
  else (expectedMcap - cur) / |jsOr cur 1| * 0.008

/-- One iteration of the pre-bonding loop body (generator.js lines 229–335).
Consumes five seeded draws: two for the Gaussian shock, one for the wick
multiplier, two for the Gaussian volume noise. -/
def preStep (s : RStream) (phases : List PhaseDescriptor) (vol : ℝ)
    (numCandles i : ℕ) (st : PreState) : Candle × PreState :=
  let progress : ℝ := (i : ℝ) / ((numCandles : ℝ) - 1)
  let currentPhase := phaseFor phases progress
  let baseVolatility := vol * currentPhase.volMult
  let randomShock := gaussianRandom s st.si * baseVolatility
  let momentumInfluence := st.shortM * 0.2
  let memoryInfluence := st.longM * 0.05
  let cyclePosition := Real.sin ((i : ℝ) * 0.05) * 0.5
  let cycleInfluence := cyclePosition * baseVolatility * 0.2
  let marketMemory := preMarketMemory numCandles i st.cur
  let totalChangePercent :=
    randomShock + momentumInfluence + memoryInfluence + cycleInfluence + marketMemory
  let shortM' := st.shortM * 0.85 + totalChangePercent * 0.15
  let longM' := st.longM * 0.97 + totalChangePercent * 0.03
  let opn := st.cur
  let close0 := opn * (1 + totalChangePercent)
  let preBondingCeiling := BONDING_MCAP * 1000
  let close := if close0 > preBondingCeiling then preBondingCeiling else close0
  let bodySize := |close - opn|
  let wickMultiplier := 0.5 + s (st.si + 2) * 0.8
  let highWick := bodySize * wickMultiplier
  let lowWick := bodySize * wickMultiplier * 0.85
  let high1 := max opn close + highWick
  let low1 := min opn close - lowWick
  let maxSwing := max (bodySize * 1.5) (st.cur * 0.05)
  let high2 := min high1 (opn + maxSwing)
  let low2 := max low1 (opn - maxSwing)
  let high := min high2 preBondingCeiling
  let low := max low2 0
  let baseVolume := st.volAvg
  let volumeMultiplier := 1 + |totalChangePercent| * 3
  let volumeNoise := gaussianRandom s (st.si + 3) * 0.3
  let volume0 := baseVolume * volumeMultiplier * (1 + volumeNoise)
  let volume := max 10000 volume0
  let volAvg' := st.volAvg * 0.98 + volume * 0.02
  (⟨opn, high, low, close, volume⟩,
   ⟨st.si + 5, close, shortM', longM', volAvg'⟩)

/-- The pre-bonding `for` loop, with the remaining iteration count as fuel
(`fuel + i = numCandles` at the top-level call). -/
def preGo (s : RStream) (phases : List PhaseDescriptor) (vol : ℝ)
    (numCandles : ℕ) : ℕ → ℕ → PreState → List Candle × ℕ
  | 0, _, st => ([], st.si)
  | fuel + 1, i, st =>
      let p := preStep s phases vol numCandles i st
      let r := preGo s phases vol numCandles fuel (i + 1) p.2
      (p.1 :: r.1, r.2)

/-- `generatePreBonding` (generator.js lines 198–342), generalized over the
phase table; returns the candles and the final seeded-stream index.  The
source also computes an unused `requiredDrift`; it reads no randomness and is
omitted. -/
def generatePreBondingWith (phases : List PhaseDescriptor) (volatility : String)
    (s : RStream) (si : ℕ) : List Candle × ℕ :=
  let numCandles := randomInt s si 150 400
  let vol := preVol volatility
  preGo s phases vol numCandles numCandles 0
    ⟨si + 1, INITIAL_MCAP, 0, 0, ssMean [50000, 150000]⟩

/-- `generatePreBonding` with the fixed `this.marketPhases` table. -/
def generatePreBonding (volatility : String) (s : RStream) (si : ℕ) :
    List Candle × ℕ :=
  generatePreBondingWith marketPhases volatility s si

/-- Post-bonding organic volatility table (generator.js lines 367–373). -/
def organicVol (volatility : String) : ℝ :=
  if volatility = "low" then 0.012
  else if volatility = "medium" then 0.02
  else if volatility = "high" then 0.03
  else if volatility = "extreme" then 0.04
  else 0.02

/-- One iteration of `generateOrganic`'s loop (generator.js lines 381–430).
Consumes seven seeded draws per candle. -/
def organicStep (s : RStream) (vol : ℝ) (i si : ℕ) (cur volAvg : ℝ) :
    Candle × ℕ × ℝ × ℝ :=
  let meanReversionLevel := BONDING_MCAP
  let meanReversionSpeed : ℝ := 0.05
  let deviation := (cur - meanReversionLevel) / meanReversionLevel
  let meanReversionForce := -deviation * meanReversionSpeed
  let diffusion := gaussianRandom s si * vol
  let organicDrift : ℝ := 0.0005
  let cycle := Real.sin ((i : ℝ) * 0.02) * vol * 0.2
  let change := meanReversionForce + diffusion + organicDrift + cycle
  let opn := cur
  let close0 := opn * (1 + change)
  let close := if close0 > BONDING_MCAP then BONDING_MCAP else close0
  let bodySize := |close - opn|
  let wickMultipliers : List ℝ := [0.2, 0.4, 0.6, 0.8]
  let wickMultiplier := wickMultipliers.getD (⌊s (si + 2) * (wickMultipliers.length : ℝ)⌋).toNat 0
  let high1 := max opn close + bodySize * wickMultiplier * s (si + 3)
  let low1 := min opn close - bodySize * wickMultiplier * s (si + 4) * 0.7
  let high := min high1 (BONDING_MCAP * 1.005)
  let low := max low1 (cur * 0.9)
  let baseVolume := volAvg
  let volumeMultiplier := 1 + |change| * 2
  let volumeNoise := gaussianRandom s (si + 5) * 0.25
  let volume := max 15000 (baseVolume * volumeMultiplier * (1 + volumeNoise))
  let volAvg' := volAvg * 0.99 + volume * 0.01
  (⟨opn, high, low, close, volume⟩, si + 7, close, volAvg')

/-- The `generateOrganic` loop with fuel. -/
def organicGo (s : RStream) (vol : ℝ) : ℕ → ℕ → ℕ → ℝ → ℝ → List Candle × ℕ
  | 0, _, si, _, _ => ([], si)
  | fuel + 1, i, si, cur, volAvg =>
      let p := organicStep s vol i si cur volAvg
      let r := organicGo s vol fuel (i + 1) p.2.1 p.2.2.1 p.2.2.2
      (p.1 :: r.1, r.2)

/-- `generateOrganic` (generator.js lines 363–433); reads only the seeded
stream (the source contains no `Math.random` call). -/
def generateOrganic (startMcap : ℝ) (numCandles : ℕ) (volatility : String)
    (s : RStream) (si : ℕ) : List Candle × ℕ :=
  organicGo s (organicVol volatility) numCandles 0 si startMcap
    (ssMean [80000, 120000])

/-- Pump & dump volatility table (generator.js lines 439–445). -/
def pumpVol (volatility : String) : ℝ :=
  if volatility = "low" then 0.025
  else if volatility = "medium" then 0.035
  else if volatility = "high" then 0.045
  else if volatility = "extreme" then 0.055
  else 0.035

/-- Sub-phase descriptor of the pump & dump scenario. -/
structure PumpPhase where
  name : String
  duration : ℕ
  drift : ℝ
  volMult : ℝ

/-- The four pump & dump sub-phases (generator.js lines 449–474);
`Math.floor(numCandles * 0.25)` etc. are the exact rational floors. -/
def pumpPhases (numCandles : ℕ) : List PumpPhase :=
  [ ⟨"accumulation", numCandles * 25 / 100, 0.002, 0.8⟩,
    ⟨"pump", numCandles * 25 / 100, 0.008, 2.0⟩,
    ⟨"distribution", numCandles * 15 / 100, -0.001, 1.5⟩,
    ⟨"dump", numCandles * 35 / 100, -0.015, 2.5⟩ ]

/-- One iteration of the pump & dump inner loop (generator.js lines 480–534).
Consumes six seeded draws per candle, plus one more exactly when a
ceiling-rejection pullback fires during the pump phase (line 506). -/
def pumpStep (s : RStream) (vol : ℝ) (ph : PumpPhase) (si : ℕ) (cur volAvg : ℝ) :
    Candle × ℕ × ℝ × ℝ :=
  let phaseDrift0 := ph.drift
  let phaseDrift :=
    if ph.name = "pump" ∧ (BONDING_MCAP - cur) / cur < 0.05
    then phaseDrift0 * 0.3 else phaseDrift0
  let noise := gaussianRandom s si * vol * ph.volMult
  let change := phaseDrift + noise
  let opn := cur
  let close0 := opn * (1 + change)
  let rejected := close0 > BONDING_MCAP ∧ ph.name = "pump"
  let close :=
    if close0 > BONDING_MCAP then
      if ph.name = "pump" then BONDING_MCAP * (0.995 + s (si + 2) * 0.01)
      else BONDING_MCAP
    else close0
  let si1 := if rejected then si + 3 else si + 2
  let bodySize := |close - opn|
  let wickMultiplier := ph.volMult * 0.8
  let high1 := max opn close + bodySize * wickMultiplier * s si1
  let low1 := min opn close - bodySize * wickMultiplier * s (si1 + 1) * 0.6
  let high := min high1 (BONDING_MCAP * 1.01)
  let low := max low1 (cur * 0.85)
  let baseVolume := volAvg * ph.volMult
  let volumeMultiplier := 1 + |change| * 4
  let volumeNoise := gaussianRandom s (si1 + 2) * 0.4
  let volume := max 20000 (baseVolume * volumeMultiplier * (1 + volumeNoise))
  let volAvg' := volAvg * 0.98 + volume * 0.02
  (⟨opn, high, low, close, volume⟩, si1 + 4, close, volAvg')

/-- The inner `for` loop of one pump & dump sub-phase, guarded by the global
candle budget (`i < phase.duration && candleCount < numCandles`). -/
def pumpPhaseGo (s : RStream) (vol : ℝ) (numCandles : ℕ) (ph : PumpPhase) :
    ℕ → ℕ → ℕ → ℝ → ℝ → List Candle × ℕ × ℕ × ℝ × ℝ
  | 0, cnt, si, cur, volAvg => ([], cnt, si, cur, volAvg)
  | fuel + 1, cnt, si, cur, volAvg =>
      if cnt < numCandles then
        let p := pumpStep s vol ph si cur volAvg
        let r := pumpPhaseGo s vol numCandles ph fuel (cnt + 1) p.2.1 p.2.2.1 p.2.2.2
        (p.1 :: r.1, r.2)
      else ([], cnt, si, cur, volAvg)

/-- The outer `for (const phase of phases)` loop of `generatePumpDump`. -/
def pumpGo (s : RStream) (vol : ℝ) (numCandles : ℕ) :
    List PumpPhase → ℕ → ℕ → ℝ → ℝ → List Candle × ℕ
  | [], _, si, _, _ => ([], si)
  | ph :: rest, cnt, si, cur, volAvg =>
      let p := pumpPhaseGo s vol numCandles ph ph.duration cnt si cur volAvg
      let r := pumpGo s vol numCandles rest p.2.1 p.2.2.1 p.2.2.2.1 p.2.2.2.2
      (p.1 ++ r.1, r.2)

/-- `generatePumpDump` (generator.js lines 435–539); reads only the seeded
stream. -/
def generatePumpDump (startMcap : ℝ) (numCandles : ℕ) (volatility : String)
    (s : RStream) (si : ℕ) : List Candle × ℕ :=
  pumpGo s (pumpVol volatility) numCandles (pumpPhases numCandles) 0 si startMcap
    (ssMean [100000, 150000])

/-- Instant-rug volatility table (generator.js lines 546–552). -/
def rugVol (volatility : String) : ℝ :=
  if volatility = "low" then 0.01
  else if volatility = "medium" then 0.02
  else if volatility = "high" then 0.03
  else if volatility = "extreme" then 0.04
  else 0.02

/-- One iteration of `generateInstantRug`'s loop (generator.js lines 554–581).
Per candle: one seeded draw for the return, three unseeded `Math.random`
draws (volume, high wick, low wick). -/
def rugStep (s u : RStream) (vol : ℝ) (rugPoint i si ui : ℕ) (cur : ℝ) :
    Candle × ℕ × ℕ × ℝ :=
  let change :=
    if i < rugPoint then randomR s si (-(vol * 0.5)) (vol * 1.5)
    else if i = rugPoint then -(randomR s si 0.85 0.95)
    else randomR s si (-0.001) 0.001
  let volume :=
    if i < rugPoint then 100000 + u ui * 50000
    else if i = rugPoint then 500000 + u ui * 500000
    else 1000 + u ui * 5000
  let opn := cur
  let close := max (INITIAL_MCAP * 0.1) (opn * (1 + change))
  let wickFactor : ℝ := if i = rugPoint then 0.2 else 0.5
  let wickSize := vol * cur * wickFactor
  let high := max opn close + u (ui + 1) * wickSize
  let low := min opn close - u (ui + 2) * wickSize * 2
  (⟨opn, high, low, close, volume⟩, si + 1, ui + 3, close)

/-- The `generateInstantRug` loop with fuel. -/
def rugGo (s u : RStream) (vol : ℝ) (rugPoint : ℕ) :
    ℕ → ℕ → ℕ → ℕ → ℝ → List Candle × ℕ × ℕ
  | 0, _, si, ui, _ => ([], si, ui)
  | fuel + 1, i, si, ui, cur =>
      let p := rugStep s u vol rugPoint i si ui cur
      let r := rugGo s u vol rugPoint fuel (i + 1) p.2.1 p.2.2.1 p.2.2.2
      (p.1 :: r.1, r.2)

/-- `generateInstantRug` (generator.js lines 541–584): a rug index drawn from
`[10, 30]` (inclusive, `randomInt(10, 30)`), mild pre-rug pump, one 85–95%
drop, near-flat dead tail. -/
def generateInstantRug (startMcap : ℝ) (numCandles : ℕ) (volatility : String)
    (s u : RStream) (si ui : ℕ) : List Candle × ℕ × ℕ :=
  let rugPoint := randomInt s si 10 30
  rugGo s u (rugVol volatility) rugPoint numCandles 0 (si + 1) ui startMcap

/-- Slow-bleed volatility table (generator.js lines 590–596). -/
def bleedVol (volatility : String) : ℝ :=
  if volatility = "low" then 0.01
  else if volatility = "medium" then 0.015
  else if volatility = "high" then 0.02
  else if volatility = "extreme" then 0.025
  else 0.015

/-- One iteration of `generateSlowBleed`'s loop (generator.js lines 603–628).
The unseeded stream decides the relief rally (`Math.random() < 0.08`) and
feeds wicks and volume; the rally consumes two extra seeded draws exactly
when it fires. -/
def bleedStep (s u : RStream) (vol baseDecline : ℝ) (numCandles i si ui : ℕ)
    (cur : ℝ) : Candle × ℕ × ℕ × ℝ :=
  let progress : ℝ := (i : ℝ) / (numCandles : ℝ)
  let decline := baseDecline * (1 + progress * 2)
  let hasRally := u ui < 0.08
  let rally := if hasRally then |gaussianRandom s si| * vol * 2 else 0
  let si1 := if hasRally then si + 2 else si
  let noise := gaussianRandom s si1 * vol
  let change := decline + noise + rally
  let opn := cur
  let close := max (INITIAL_MCAP * 0.5) (opn * (1 + change))
  let wickSize := vol * cur * 0.5
  let high := max opn close + u (ui + 1) * wickSize
  let low := min opn close - u (ui + 2) * wickSize
  let volume := 100000 - progress * 70000 + u (ui + 3) * 30000
  (⟨opn, high, low, close, volume⟩, si1 + 2, ui + 4, close)

/-- The `generateSlowBleed` loop with fuel. -/
def bleedGo (s u : RStream) (vol baseDecline : ℝ) (numCandles : ℕ) :
    ℕ → ℕ → ℕ → ℕ → ℝ → List Candle × ℕ × ℕ
  | 0, _, si, ui, _ => ([], si, ui)
  | fuel + 1, i, si, ui, cur =>
      let p := bleedStep s u vol baseDecline numCandles i si ui cur
      let r := bleedGo s u vol baseDecline numCandles fuel (i + 1) p.2.1 p.2.2.1 p.2.2.2
      (p.1 :: r.1, r.2)

/-- `generateSlowBleed` (generator.js lines 586–631): target 10–20% of the
start, log-spread decline accelerating with progress. -/
def generateSlowBleed (startMcap : ℝ) (numCandles : ℕ) (volatility : String)
    (s u : RStream) (si ui : ℕ) : List Candle × ℕ × ℕ :=
  let vol := bleedVol volatility
  let targetMcap := startMcap * randomR s si 0.1 0.2
  let totalDecline := Real.log (targetMcap / startMcap)
  let baseDecline := totalDecline / (numCandles : ℝ)
  bleedGo s u vol baseDecline numCandles numCandles 0 (si + 1) ui startMcap

/-- Consolidation volatility table (generator.js lines 637–643). -/
def consolVol (volatility : String) : ℝ :=
  if volatility = "low" then 0.008
  else if volatility = "medium" then 0.012
  else if volatility = "high" then 0.016
  else if volatility = "extreme" then 0.02
  else 0.012

/-- One iteration of `generateConsolidation`'s loop (generator.js lines
653–689).  `breakoutUpDraw` is the single unseeded draw taken before the loop
(`Math.random() > 0.5`); per candle the unseeded stream feeds volume and the
two wicks, the seeded stream the Gaussian term. -/
def consolStep (s u : RStream) (vol : ℝ) (startMcap breakoutUpDraw : ℝ)
    (numCandles consolidationEnd i si ui : ℕ) (cur : ℝ) : Candle × ℕ × ℕ × ℝ :=
  let rangeHigh := startMcap * 1.1
  let rangeLow := startMcap * 0.9
  let rangeCenter := (rangeHigh + rangeLow) / 2
  let change :=
    if i < consolidationEnd then
      let rangeProgress : ℝ := (i : ℝ) / (consolidationEnd : ℝ)
      let rangeTightening := 1 - rangeProgress * 0.5
      let distFromCenter := (cur - rangeCenter) / rangeCenter
      let pullToCenter := -distFromCenter * 0.1
      pullToCenter + Real.sin ((i : ℝ) * 0.15) * vol * rangeTightening +
        gaussianRandom s si * vol * 0.5
    else
      let breakoutProgress : ℝ :=
        ((i : ℝ) - (consolidationEnd : ℝ)) / ((numCandles : ℝ) - (consolidationEnd : ℝ))
      let breakoutStrength :=
        (if breakoutUpDraw > 0.5 then (0.008 : ℝ) else -0.008) * (1 + breakoutProgress)
      breakoutStrength + gaussianRandom s si * vol
  let volume :=
    if i < consolidationEnd then 60000 + u ui * 40000
    else 150000 + u ui * 100000
  let opn := cur
  let close := opn * (1 + change)
  let wickSize := vol * cur * 0.3
  let high := max opn close + u (ui + 1) * wickSize
  let low := min opn close - u (ui + 2) * wickSize
  (⟨opn, high, low, close, volume⟩, si + 2, ui + 3, close)

/-- The `generateConsolidation` loop with fuel. -/
def consolGo (s u : RStream) (vol : ℝ) (startMcap breakoutUpDraw : ℝ)
    (numCandles consolidationEnd : ℕ) :
    ℕ → ℕ → ℕ → ℕ → ℝ → List Candle × ℕ × ℕ
  | 0, _, si, ui, _ => ([], si, ui)
  | fuel + 1, i, si, ui, cur =>
      let p :=
        consolStep s u vol startMcap breakoutUpDraw numCandles consolidationEnd i si ui cur
      let r :=
        consolGo s u vol startMcap breakoutUpDraw numCandles consolidationEnd fuel
          (i + 1) p.2.1 p.2.2.1 p.2.2.2
      (p.1 :: r.1, r.2)

/-- `generateConsolidation` (generator.js lines 633–693): range oscillation
for the first 70% of candles, then a one-directional breakout whose sign is
one unseeded draw. -/
def generateConsolidation (startMcap : ℝ) (numCandles : ℕ) (volatility : String)
    (s u : RStream) (si ui : ℕ) : List Candle × ℕ × ℕ :=
  let vol := consolVol volatility
  let consolidationEnd := numCandles * 70 / 100
  let breakoutUpDraw := u ui
  consolGo s u vol startMcap breakoutUpDraw numCandles consolidationEnd
    numCandles 0 si (ui + 1) startMcap

/-- `generatePostBonding` (generator.js lines 344–361): draw the candle count
from `[500, 1500]`, then dispatch on the scenario name; an unrecognized name
falls into the `default:` branch, which runs `generateOrganic`.  Returns the
candles with the final seeded and unseeded indices. -/
def generatePostBonding (startMcap : ℝ) (scenario volatility : String)
    (s u : RStream) (si ui : ℕ) : List Candle × ℕ × ℕ :=
  let numCandles := randomInt s si 500 1500
  let si' := si + 1
  if scenario = "organic" then
    let p := generateOrganic startMcap numCandles volatility s si'
    (p.1, p.2, ui)
  else if scenario = "pump_dump" then
    let p := generatePumpDump startMcap numCandles volatility s si'
    (p.1, p.2, ui)
  else if scenario = "instant_rug" then
    generateInstantRug startMcap numCandles volatility s u si' ui
  else if scenario = "slow_bleed" then
    generateSlowBleed startMcap numCandles volatility s u si' ui
  else if scenario = "consolidation" then
    generateConsolidation startMcap numCandles volatility s u si' ui
  else
    let p := generateOrganic startMcap numCandles volatility s si'
    (p.1, p.2, ui)

/-- The five scenario names drawn from when `scenario === "random"`. -/
def scenarios : List String :=
  ["organic", "pump_dump", "instant_rug", "slow_bleed", "consolidation"]

/-- Summary metadata of a generated chart (`calculateMetadata`'s fields). -/
structure Metadata where
  startMcap : ℝ
  finalMcap : ℝ
  peakMcap : ℝ
  minMcap : ℝ
  totalCandles : ℕ

/-- `Math.max(...xs)` over a nonempty spread (the `[]` case is unused). -/
def listMax : List ℝ → ℝ
  | [] => 0
  | x :: xs => xs.foldl max x

/-- `Math.min(...xs)` over a nonempty spread (the `[]` case is unused). -/
def listMin : List ℝ → ℝ
  | [] => 0
  | x :: xs => xs.foldl min x

/-- `calculateMetadata` (generator.js lines 695–707).  The source returns the
empty object `{}` on empty data; we model that as `none`. -/
def calculateMetadata (data : List Candle) : Option Metadata :=
  if data = [] then none
  else
    let marketCaps := data.map Candle.close
    some ⟨marketCaps.headD 0, marketCaps.getLastD 0,
          listMax marketCaps, listMin marketCaps, data.length⟩

/-- The lightweight-charts mapping of `generate` (generator.js lines 182–190):
each candle gets `time = now - (total - index) * 60` and its OHLCV fields
verbatim.  `total` is the full data length, `i` the index of the first
element of `l`. -/
def attachTimes (now : ℤ) (total : ℕ) : ℕ → List Candle → List TimedCandle
  | _, [] => []
  | i, c :: cs =>
      ⟨now - ((total : ℤ) - (i : ℤ)) * 60, c.open_, c.high, c.low, c.close, c.volume⟩ ::
        attachTimes now total (i + 1) cs

/-- The `options` argument of `generate` after defaulting. -/
structure Options where
  chartType : String
  scenario : String
  volatility : String

/-- The value returned by `generate`; the cosmetic `id` string is not
modelled. -/
structure Result where
  scenario : String
  data : List TimedCandle
  metadata : Option Metadata

/-- The raw (untimed) candle list that `generate` (generator.js lines
81–196) assembles into `result.data`: the pre-bonding segment when
`chartType` is `"full"` or `"pre"`, then the post-bonding segment when it is
`"full"` or `"post"`, started at the last pre-bonding close (or at
`BONDING_MCAP` when there is no pre-bonding data).  The unseeded index
entering the post stage accounts for the scenario pick (one `Math.random`
when `scenario === "random"`) and the chart id (always one `Math.random`). -/
def generateData (opts : Options) (s u : RStream) : List Candle :=
  let finalScenario :=
    if opts.scenario = "random" then scenarios.getD (⌊u 0 * 5⌋).toNat "organic"
    else opts.scenario
  let ui0 : ℕ := if opts.scenario = "random" then 2 else 1
  let pre :=
    if opts.chartType = "full" ∨ opts.chartType = "pre" then
      generatePreBonding opts.volatility s 0
    else ([], 0)
  let data1 := pre.1
  if opts.chartType = "full" ∨ opts.chartType = "post" then
    let startMcap := if 0 < data1.length then (data1.getLastD default).close else BONDING_MCAP
    data1 ++ (generatePostBonding startMcap finalScenario opts.volatility s u pre.2 ui0).1
  else data1

/-- `generate` (generator.js lines 81–196): assemble the data, attach times,
compute metadata.  `now` stands for `Math.floor(Date.now() / 1000)`. -/
def generate (opts : Options) (s u : RStream) (now : ℤ) : Result :=
  let finalScenario :=
    if opts.scenario = "random" then scenarios.getD (⌊u 0 * 5⌋).toNat "organic"
    else opts.scenario
  let data := generateData opts s u
  ⟨finalScenario, attachTimes now data.length 0 data, calculateMetadata data⟩

/-! ### Auxiliary definitions used by the development -/

/-- The continuity predicate: the first candle opens at `a`, and each later
candle opens at its predecessor's close. -/
def chainFrom : ℝ → List Candle → Prop
  | _, [] => True
  | a, k :: ks => k.open_ = a ∧ chainFrom k.close ks

/-- Close of the last candle of `l`, defaulting to `a` when `l` is empty. -/
def lastClose (a : ℝ) : List Candle → ℝ
  | [] => a
  | k :: ks => lastClose k.close ks

/-- Following the specification's words (§4.3 step 5, claim C8): `expectedCap`
is the linear interpolation from the initial capitalization (5000) toward the
zone target of 40% of the bonding ceiling (100000), parameterized by the
progress `i / (N - 1)`. -/
def expectedCapSpec (N i : ℕ) : ℝ :=
  5000 + (0.4 * 100000 - 5000) * ((i : ℝ) / ((N : ℝ) - 1))

/-- Constant random stream, used to instantiate witnesses. -/
def constS (c : ℝ) : RStream := fun _ => c

/-- Seeded stream for the C1 counterexample: draw 0 selects 150 pre-bonding
candles, draws 1 and 2 make the first Gaussian shock equal −5 (Box–Muller
with `u = e^{−12.5}`, `v = 1/2`), all later draws are 1/4. -/
def c1SeedStream : RStream := fun k =>
  if k = 0 then 0 else if k = 1 then Real.exp (-12.5) else if k = 2 then 1/2 else 1/4

/-- Seeded stream for the C2 counterexample: draw 0 selects 500 post-bonding
candles, draw 1 puts the rug at index 10, draw 2 makes the first pre-rug
return +2.6%. -/
def c2SeedStream : RStream := fun k =>
  if k = 0 then 0 else if k = 1 then 0 else if k = 2 then 9/10 else 1/4

/-- Seeded stream for the C3 counterexample: draw 0 selects 500 post-bonding
candles; every later draw is 1/4, which makes each Box–Muller Gaussian zero
(`cos(π/2) = 0`). -/
def c3SeedStream : RStream := fun k => if k = 0 then 0 else 1/4

/-- The single-candle return `close / open` of a candle. -/
def ratio (c : Candle) : ℝ := c.close / c.open_

/-- Seeded stream for the C6 counterexample: the first draw `41/42` puts the
rug at index 30 (`⌊41/42 · 21⌋ + 10 = 30`); every later draw is 1/4, making
each pre-rug return exactly zero. -/
def c6SeedStream : RStream := fun k => if k = 0 then 41/42 else 1/4

/-! ### Infrastructure: the open/close continuity chain -/


theorem chainFrom_append : ∀ (l₁ l₂ : List Candle) (a : ℝ),
    chainFrom a l₁ → chainFrom (lastClose a l₁) l₂ → chainFrom a (l₁ ++ l₂)
  | [], l₂, a, _, h₂ => h₂
  | k :: ks, l₂, a, h₁, h₂ =>
      ⟨h₁.1, chainFrom_append ks l₂ k.close h₁.2 h₂⟩

theorem chainFrom_get : ∀ (l : List Candle) (a : ℝ), chainFrom a l →
    ∀ i (h : i + 1 < l.length),
      (l.get ⟨i + 1, h⟩).open_ = (l.get ⟨i, Nat.lt_of_succ_lt h⟩).close
  | [], _, _, _, h => by simp at h
  | k :: ks, a, hc, i, h => by
      cases ks with
      | nil => simp at h
      | cons k2 ks2 =>
          cases i with
          | zero => simpa using hc.2.1
          | succ j =>
              simpa using chainFrom_get (k2 :: ks2) k.close hc.2 j (by simpa using h)

theorem chainFrom_head : ∀ (l : List Candle) (a : ℝ), chainFrom a l →
    ∀ h : l ≠ [], (l.head h).open_ = a
  | [], _, _, h => absurd rfl h
  | _ :: _, _, hc, _ => hc.1

theorem lastClose_eq_getLast : ∀ (l : List Candle) (a : ℝ) (h : l ≠ []),
    lastClose a l = (l.getLast h).close
  | [], _, h => absurd rfl h
  | [k], a, _ => rfl
  | k :: k2 :: ks, a, _ => by
      rw [List.getLast_cons (by simp)]
      exact lastClose_eq_getLast (k2 :: ks) k.close (by simp)

theorem lastClose_getLastD (l : List Candle) (a : ℝ) (h : l ≠ []) :
    lastClose a l = (l.getLastD default).close := by
  rw [lastClose_eq_getLast l a h, List.getLastD_eq_getLast?,
    List.getLast?_eq_getLast l h]
  rfl

/-! ### Infrastructure: lengths of the generator loops -/

theorem preGo_length (s : RStream) (phases : List PhaseDescriptor) (vol : ℝ)
    (n : ℕ) : ∀ fuel i st, (preGo s phases vol n fuel i st).1.length = fuel
  | 0, _, _ => rfl
  | fuel + 1, i, st => by
      simp [preGo, preGo_length s phases vol n fuel]

theorem organicGo_length (s : RStream) (vol : ℝ) :
    ∀ fuel i si cur volAvg, (organicGo s vol fuel i si cur volAvg).1.length = fuel
  | 0, _, _, _, _ => rfl
  | fuel + 1, i, si, cur, volAvg => by
      simp [organicGo, organicGo_length s vol fuel]

theorem rugGo_length (s u : RStream) (vol : ℝ) (rugP : ℕ) :
    ∀ fuel i si ui cur, (rugGo s u vol rugP fuel i si ui cur).1.length = fuel
  | 0, _, _, _, _ => rfl
  | fuel + 1, i, si, ui, cur => by
      simp [rugGo, rugGo_length s u vol rugP fuel]

theorem bleedGo_length (s u : RStream) (vol bd : ℝ) (n : ℕ) :
    ∀ fuel i si ui cur, (bleedGo s u vol bd n fuel i si ui cur).1.length = fuel
  | 0, _, _, _, _ => rfl
  | fuel + 1, i, si, ui, cur => by
      simp [bleedGo, bleedGo_length s u vol bd n fuel]

theorem consolGo_length (s u : RStream) (vol M bu : ℝ) (n ce : ℕ) :
    ∀ fuel i si ui cur, (consolGo s u vol M bu n ce fuel i si ui cur).1.length = fuel
  | 0, _, _, _, _ => rfl
  | fuel + 1, i, si, ui, cur => by
      simp [consolGo, consolGo_length s u vol M bu n ce fuel]

theorem pumpPhaseGo_length (s : RStream) (vol : ℝ) (n : ℕ) (ph : PumpPhase) :
    ∀ fuel cnt si cur volAvg,
      (pumpPhaseGo s vol n ph fuel cnt si cur volAvg).1.length = min fuel (n - cnt)
  | 0, cnt, _, _, _ => by simp [pumpPhaseGo]
  | fuel + 1, cnt, si, cur, volAvg => by
      by_cases h : cnt < n
      · have hrec := pumpPhaseGo_length s vol n ph fuel (cnt + 1) (pumpStep s vol ph si cur volAvg).2.1
          (pumpStep s vol ph si cur volAvg).2.2.1 (pumpStep s vol ph si cur volAvg).2.2.2
        simp only [pumpPhaseGo, if_pos h, List.length_cons, hrec]
        omega
      · simp only [pumpPhaseGo, if_neg h, List.length_nil]
        omega

theorem pumpPhaseGo_cnt (s : RStream) (vol : ℝ) (n : ℕ) (ph : PumpPhase) :
    ∀ fuel cnt si cur volAvg,
      (pumpPhaseGo s vol n ph fuel cnt si cur volAvg).2.1 =
        cnt + (pumpPhaseGo s vol n ph fuel cnt si cur volAvg).1.length
  | 0, cnt, _, _, _ => by simp [pumpPhaseGo]
  | fuel + 1, cnt, si, cur, volAvg => by
      by_cases h : cnt < n
      · have hrec := pumpPhaseGo_cnt s vol n ph fuel (cnt + 1) (pumpStep s vol ph si cur volAvg).2.1
          (pumpStep s vol ph si cur volAvg).2.2.1 (pumpStep s vol ph si cur volAvg).2.2.2
        simp only [pumpPhaseGo, if_pos h, List.length_cons, hrec]
        omega
      · simp [pumpPhaseGo, if_neg h]

/-! ### Infrastructure: the time-attaching map -/

theorem attachTimes_length (now : ℤ) (total : ℕ) :
    ∀ (i : ℕ) (l : List Candle), (attachTimes now total i l).length = l.length
  | _, [] => rfl
  | i, c :: cs => by simp [attachTimes, attachTimes_length now total (i + 1) cs]

theorem attachTimes_get (now : ℤ) (total : ℕ) :
    ∀ (l : List Candle) (i j : ℕ) (h : j < (attachTimes now total i l).length)
      (h' : j < l.length),
      ((attachTimes now total i l).get ⟨j, h⟩).open_ = (l.get ⟨j, h'⟩).open_ ∧
      ((attachTimes now total i l).get ⟨j, h⟩).high = (l.get ⟨j, h'⟩).high ∧
      ((attachTimes now total i l).get ⟨j, h⟩).low = (l.get ⟨j, h'⟩).low ∧
      ((attachTimes now total i l).get ⟨j, h⟩).close = (l.get ⟨j, h'⟩).close ∧
      ((attachTimes now total i l).get ⟨j, h⟩).volume = (l.get ⟨j, h'⟩).volume
  | [], _, j, h, h' => by simp at h'
  | c :: cs, i, 0, h, h' => by simp [attachTimes]
  | c :: cs, i, j + 1, h, h' => by
      simpa [attachTimes] using
        attachTimes_get now total cs (i + 1) j (by simpa [attachTimes] using h)
          (by simpa using h')

theorem attachTimes_mem (now : ℤ) (total : ℕ) :
    ∀ (l : List Candle) (i : ℕ) (tc : TimedCandle), tc ∈ attachTimes now total i l →
      ∃ c ∈ l, tc.open_ = c.open_ ∧ tc.high = c.high ∧ tc.low = c.low ∧
        tc.close = c.close ∧ tc.volume = c.volume
  | [], _, tc, h => by simp [attachTimes] at h
  | c :: cs, i, tc, h => by
      rcases (by simpa [attachTimes] using h) with h1 | h2
      · exact ⟨c, by simp, by simp [h1]⟩
      · rcases attachTimes_mem now total cs (i + 1) tc h2 with ⟨c', hc', hf⟩
        exact ⟨c', by simp [hc'], hf⟩

theorem attachTimes_map_close (now : ℤ) (total : ℕ) :
    ∀ (l : List Candle) (i : ℕ),
      (attachTimes now total i l).map TimedCandle.close = l.map Candle.close
  | [], _ => rfl
  | c :: cs, i => by
      simp [attachTimes, attachTimes_map_close now total cs (i + 1)]

theorem attachTimes_eq_nil_iff (now : ℤ) (total : ℕ) :
    ∀ (l : List Candle) (i : ℕ), attachTimes now total i l = [] ↔ l = []
  | [], _ => by simp [attachTimes]
  | c :: cs, i => by simp [attachTimes]

/-! ### Infrastructure: `Math.max` / `Math.min` over a spread -/

theorem le_foldl_max_self : ∀ (l : List ℝ) (a : ℝ), a ≤ l.foldl max a
  | [], a => le_refl a
  | b :: bs, a => le_trans (le_max_left a b) (le_foldl_max_self bs (max a b))

theorem foldl_max_le_mem : ∀ (l : List ℝ) (a x : ℝ), x = a ∨ x ∈ l → x ≤ l.foldl max a
  | [], a, x, h => by
      rcases h with h | h
      · exact le_of_eq h
      · simp at h
  | b :: bs, a, x, h => by
      rw [List.foldl_cons]
      rcases h with h | h
      · subst h
        exact le_trans (le_max_left x b) (le_foldl_max_self bs (max x b))
      · rcases List.mem_cons.mp h with h | h
        · subst h
          exact le_trans (le_max_right a x) (le_foldl_max_self bs (max a x))
        · exact foldl_max_le_mem bs (max a b) x (Or.inr h)

theorem foldl_max_mem : ∀ (l : List ℝ) (a : ℝ), l.foldl max a = a ∨ l.foldl max a ∈ l
  | [], a => Or.inl rfl
  | b :: bs, a => by
      rw [List.foldl_cons]
      rcases foldl_max_mem bs (max a b) with h | h
      · rcases le_total a b with hab | hab
        · exact Or.inr (by rw [h, max_eq_right hab]; exact List.mem_cons_self b bs)
        · exact Or.inl (by rw [h, max_eq_left hab])
      · exact Or.inr (List.mem_cons_of_mem b h)

theorem le_listMax (l : List ℝ) (x : ℝ) (h : x ∈ l) : x ≤ listMax l := by
  cases l with
  | nil => simp at h
  | cons b bs =>
      rcases (by simpa using h) with h | h
      · exact foldl_max_le_mem bs b x (Or.inl h)
      · exact foldl_max_le_mem bs b x (Or.inr h)

theorem listMax_mem (l : List ℝ) (h : l ≠ []) : listMax l ∈ l := by
  cases l with
  | nil => exact absurd rfl h
  | cons b bs =>
      rcases foldl_max_mem bs b with h1 | h1
      · simp [listMax, h1]
      · simp [listMax, h1]

theorem foldl_min_le_self : ∀ (l : List ℝ) (a : ℝ), l.foldl min a ≤ a
  | [], a => le_refl a
  | b :: bs, a => le_trans (foldl_min_le_self bs (min a b)) (min_le_left a b)

theorem foldl_min_le_mem : ∀ (l : List ℝ) (a x : ℝ), x = a ∨ x ∈ l → l.foldl min a ≤ x
  | [], a, x, h => by
      rcases h with h | h
      · exact le_of_eq h.symm
      · simp at h
  | b :: bs, a, x, h => by
      rw [List.foldl_cons]
      rcases h with h | h
      · subst h
        exact le_trans (foldl_min_le_self bs (min x b)) (min_le_left x b)
      · rcases List.mem_cons.mp h with h | h
        · subst h
          exact le_trans (foldl_min_le_self bs (min a x)) (min_le_right a x)
        · exact foldl_min_le_mem bs (min a b) x (Or.inr h)

theorem foldl_min_mem : ∀ (l : List ℝ) (a : ℝ), l.foldl min a = a ∨ l.foldl min a ∈ l
  | [], a => Or.inl rfl
  | b :: bs, a => by
      rw [List.foldl_cons]
      rcases foldl_min_mem bs (min a b) with h | h
      · rcases le_total a b with hab | hab
        · exact Or.inl (by rw [h, min_eq_left hab])
        · exact Or.inr (by rw [h, min_eq_right hab]; exact List.mem_cons_self b bs)
      · exact Or.inr (List.mem_cons_of_mem b h)

theorem listMin_le (l : List ℝ) (x : ℝ) (h : x ∈ l) : listMin l ≤ x := by
  cases l with
  | nil => simp at h
  | cons b bs =>
      rcases (by simpa using h) with h | h
      · exact foldl_min_le_mem bs b x (Or.inl h)
      · exact foldl_min_le_mem bs b x (Or.inr h)

theorem listMin_mem (l : List ℝ) (h : l ≠ []) : listMin l ∈ l := by
  cases l with
  | nil => exact absurd rfl h
  | cons b bs =>
      rcases foldl_min_mem bs b with h1 | h1
      · simp [listMin, h1]
      · simp [listMin, h1]

/-! ### Continuity of each generator loop -/

theorem preGo_chain (s : RStream) (phases : List PhaseDescriptor) (vol : ℝ)
    (n : ℕ) : ∀ fuel i st, chainFrom st.cur (preGo s phases vol n fuel i st).1
  | 0, _, _ => trivial
  | fuel + 1, i, st =>
      ⟨rfl, preGo_chain s phases vol n fuel (i + 1)
        (preStep s phases vol n i st).2⟩

theorem organicGo_chain (s : RStream) (vol : ℝ) :
    ∀ fuel i si cur volAvg, chainFrom cur (organicGo s vol fuel i si cur volAvg).1
  | 0, _, _, _, _ => trivial
  | fuel + 1, i, si, cur, volAvg =>
      ⟨rfl, organicGo_chain s vol fuel (i + 1)
        (organicStep s vol i si cur volAvg).2.1
        (organicStep s vol i si cur volAvg).2.2.1
        (organicStep s vol i si cur volAvg).2.2.2⟩

theorem rugGo_chain (s u : RStream) (vol : ℝ) (rugP : ℕ) :
    ∀ fuel i si ui cur, chainFrom cur (rugGo s u vol rugP fuel i si ui cur).1
  | 0, _, _, _, _ => trivial
  | fuel + 1, i, si, ui, cur =>
      ⟨rfl, rugGo_chain s u vol rugP fuel (i + 1)
        (rugStep s u vol rugP i si ui cur).2.1
        (rugStep s u vol rugP i si ui cur).2.2.1
        (rugStep s u vol rugP i si ui cur).2.2.2⟩

theorem bleedGo_chain (s u : RStream) (vol bd : ℝ) (n : ℕ) :
    ∀ fuel i si ui cur, chainFrom cur (bleedGo s u vol bd n fuel i si ui cur).1
  | 0, _, _, _, _ => trivial
  | fuel + 1, i, si, ui, cur =>
      ⟨rfl, bleedGo_chain s u vol bd n fuel (i + 1)
        (bleedStep s u vol bd n i si ui cur).2.1
        (bleedStep s u vol bd n i si ui cur).2.2.1
        (bleedStep s u vol bd n i si ui cur).2.2.2⟩

theorem consolGo_chain (s u : RStream) (vol M bu : ℝ) (n ce : ℕ) :
    ∀ fuel i si ui cur, chainFrom cur (consolGo s u vol M bu n ce fuel i si ui cur).1
  | 0, _, _, _, _ => trivial
  | fuel + 1, i, si, ui, cur =>
      ⟨rfl, consolGo_chain s u vol M bu n ce fuel (i + 1)
        (consolStep s u vol M bu n ce i si ui cur).2.1
        (consolStep s u vol M bu n ce i si ui cur).2.2.1
        (consolStep s u vol M bu n ce i si ui cur).2.2.2⟩

theorem pumpPhaseGo_chain (s : RStream) (vol : ℝ) (n : ℕ) (ph : PumpPhase) :
    ∀ fuel cnt si cur volAvg,
      chainFrom cur (pumpPhaseGo s vol n ph fuel cnt si cur volAvg).1 ∧
      (pumpPhaseGo s vol n ph fuel cnt si cur volAvg).2.2.2.1 =
        lastClose cur (pumpPhaseGo s vol n ph fuel cnt si cur volAvg).1
  | 0, _, _, _, _ => ⟨trivial, rfl⟩
  | fuel + 1, cnt, si, cur, volAvg => by
      by_cases h : cnt < n
      · have hrec := pumpPhaseGo_chain s vol n ph fuel (cnt + 1)
          (pumpStep s vol ph si cur volAvg).2.1
          (pumpStep s vol ph si cur volAvg).2.2.1
          (pumpStep s vol ph si cur volAvg).2.2.2
        simp only [pumpPhaseGo, if_pos h]
        exact ⟨⟨rfl, hrec.1⟩, hrec.2⟩
      · simp only [pumpPhaseGo, if_neg h]
        exact ⟨trivial, rfl⟩

theorem pumpGo_chain (s : RStream) (vol : ℝ) (n : ℕ) :
    ∀ (phs : List PumpPhase) cnt si cur volAvg,
      chainFrom cur (pumpGo s vol n phs cnt si cur volAvg).1
  | [], _, _, _, _ => trivial
  | ph :: rest, cnt, si, cur, volAvg => by
      have h1 := pumpPhaseGo_chain s vol n ph ph.duration cnt si cur volAvg
      have h2 := pumpGo_chain s vol n rest
        (pumpPhaseGo s vol n ph ph.duration cnt si cur volAvg).2.1
        (pumpPhaseGo s vol n ph ph.duration cnt si cur volAvg).2.2.1
        (pumpPhaseGo s vol n ph ph.duration cnt si cur volAvg).2.2.2.1
        (pumpPhaseGo s vol n ph ph.duration cnt si cur volAvg).2.2.2.2
      exact chainFrom_append _ _ _ h1.1 (h1.2 ▸ h2)

theorem generatePostBonding_chain (startMcap : ℝ) (scenario volatility : String)
    (s u : RStream) (si ui : ℕ) :
    chainFrom startMcap (generatePostBonding startMcap scenario volatility s u si ui).1 := by
  unfold generatePostBonding
  split
  · exact organicGo_chain s _ _ 0 _ _ _
  · split
    · exact pumpGo_chain s _ _ _ 0 _ _ _
    · split
      · exact rugGo_chain s u _ _ _ 0 _ _ _
      · split
        · exact bleedGo_chain s u _ _ _ _ 0 _ _ _
        · split
          · exact consolGo_chain s u _ _ _ _ _ _ 0 _ _ _
          · exact organicGo_chain s _ _ 0 _ _ _

theorem generatePostBonding_length (startMcap : ℝ) (scenario volatility : String)
    (s u : RStream) (si ui : ℕ) :
    500 ≤ randomInt s si 500 1500 ∧
      (generatePostBonding startMcap scenario volatility s u si ui).1 ≠ [] := by
  have h500 : 500 ≤ randomInt s si 500 1500 := Nat.le_add_left 500 _
  refine ⟨h500, ?_⟩
  have hlen : ∀ l : List Candle, 0 < l.length → l ≠ [] := by
    intro l hl; cases l with
    | nil => simp at hl
    | cons a as => simp
  unfold generatePostBonding
  split
  · exact hlen _ (by dsimp only [generateOrganic]; rw [organicGo_length]; omega)
  · split
    · refine hlen _ ?_
      dsimp only [generatePumpDump]
      simp only [pumpGo, pumpPhases, List.length_append, pumpPhaseGo_length]
      have : 0 < min (randomInt s si 500 1500 * 25 / 100) (randomInt s si 500 1500 - 0) := by
        have h1 : 125 ≤ randomInt s si 500 1500 * 25 / 100 := by
          calc 125 = 500 * 25 / 100 := by norm_num
          _ ≤ randomInt s si 500 1500 * 25 / 100 :=
            Nat.div_le_div_right (Nat.mul_le_mul_right 25 h500)
        omega
      omega
    · split
      · exact hlen _ (by dsimp only [generateInstantRug]; rw [rugGo_length]; omega)
      · split
        · exact hlen _ (by dsimp only [generateSlowBleed]; rw [bleedGo_length]; omega)
        · split
          · exact hlen _ (by dsimp only [generateConsolidation]; rw [consolGo_length]; omega)
          · exact hlen _ (by dsimp only [generateOrganic]; rw [organicGo_length]; omega)

theorem generatePreBonding_length (volatility : String) (s : RStream) (si : ℕ) :
    (generatePreBonding volatility s si).1.length = randomInt s si 150 400 ∧
      (generatePreBonding volatility s si).1 ≠ [] := by
  have h : (generatePreBonding volatility s si).1.length = randomInt s si 150 400 := by
    unfold generatePreBonding generatePreBondingWith
    dsimp only
    exact preGo_length _ _ _ _ _ _ _
  refine ⟨h, ?_⟩
  have h150 : 150 ≤ randomInt s si 150 400 := Nat.le_add_left 150 _
  intro hnil
  rw [hnil] at h
  simp at h
  omega

theorem generateData_chain (opts : Options) (s u : RStream) :
    ∃ a, chainFrom a (generateData opts s u) ∧
      ((opts.chartType = "full" ∨ opts.chartType = "pre") → a = INITIAL_MCAP) ∧
      ((opts.chartType = "full" ∨ opts.chartType = "pre") ∨ a = BONDING_MCAP) := by
  unfold generateData
  by_cases hpre : opts.chartType = "full" ∨ opts.chartType = "pre"
  · refine ⟨INITIAL_MCAP, ?_, fun _ => rfl, Or.inl hpre⟩
    simp only [if_pos hpre]
    have hchain : chainFrom INITIAL_MCAP (generatePreBonding opts.volatility s 0).1 := by
      unfold generatePreBonding generatePreBondingWith
      dsimp only
      exact preGo_chain s marketPhases (preVol opts.volatility) (randomInt s 0 150 400)
        (randomInt s 0 150 400) 0 ⟨0 + 1, INITIAL_MCAP, 0, 0, ssMean [50000, 150000]⟩
    by_cases hpost : opts.chartType = "full" ∨ opts.chartType = "post"
    · simp only [if_pos hpost]
      have hne := (generatePreBonding_length opts.volatility s 0).2
      have hlen : 0 < (generatePreBonding opts.volatility s 0).1.length :=
        List.length_pos.mpr hne
      simp only [if_pos hlen]
      refine chainFrom_append _ _ _ hchain ?_
      rw [lastClose_getLastD _ _ hne]
      exact generatePostBonding_chain _ _ _ s u _ _
    · simp only [if_neg hpost]
      exact hchain
  · refine ⟨BONDING_MCAP, ?_, fun h => absurd h hpre, Or.inr rfl⟩
    simp only [if_neg hpre]
    by_cases hpost : opts.chartType = "full" ∨ opts.chartType = "post"
    · simp only [if_pos hpost]
      simpa using generatePostBonding_chain BONDING_MCAP _ opts.volatility s u _ _
    · simp only [if_neg hpost]
      trivial

/-! ### Per-candle bounds of the generator loops -/

theorem clamp_le (x C : ℝ) : (if x > C then C else x) ≤ C := by
  by_cases h : x > C
  · rw [if_pos h]
  · rw [if_neg h]; exact not_lt.mp h

theorem preStep_candle (s : RStream) (phases : List PhaseDescriptor) (vol : ℝ)
    (n i : ℕ) (st : PreState) (hs : ∀ k, 0 ≤ s k)
    (hcur : st.cur ≤ BONDING_MCAP * 1000) :
    10000 ≤ (preStep s phases vol n i st).1.volume ∧
    0 ≤ (preStep s phases vol n i st).1.low ∧
    max (preStep s phases vol n i st).1.open_ (preStep s phases vol n i st).1.close ≤
      (preStep s phases vol n i st).1.high ∧
    (preStep s phases vol n i st).2.cur ≤ BONDING_MCAP * 1000 := by
  simp only [preStep]
  refine ⟨le_max_left _ _, le_max_right _ _, ?_, clamp_le _ _⟩
  set tc := gaussianRandom s st.si * (vol * (phaseFor phases ((i : ℝ) / ((n : ℝ) - 1))).volMult) +
    st.shortM * 0.2 + st.longM * 0.05 +
    Real.sin ((i : ℝ) * 0.05) * 0.5 * (vol * (phaseFor phases ((i : ℝ) / ((n : ℝ) - 1))).volMult) * 0.2 +
    preMarketMemory n i st.cur with htc
  set close := if st.cur * (1 + tc) > BONDING_MCAP * 1000 then BONDING_MCAP * 1000
    else st.cur * (1 + tc) with hclose
  have hcloseC : close ≤ BONDING_MCAP * 1000 := clamp_le _ _
  have hbody : (0 : ℝ) ≤ |close - st.cur| := abs_nonneg _
  have hwick : (0 : ℝ) ≤ 0.5 + s (st.si + 2) * 0.8 := by
    have := hs (st.si + 2); nlinarith
  refine le_min (le_min ?_ ?_) ?_
  · nlinarith [mul_nonneg hbody hwick]
  · refine max_le ?_ ?_
    · have : (0 : ℝ) ≤ max (|close - st.cur| * 1.5) (st.cur * 0.05) :=
        le_trans (by nlinarith) (le_max_left _ _)
      linarith
    · have h1 : close - st.cur ≤ |close - st.cur| := le_abs_self _
      have h2 : |close - st.cur| * 1.5 ≤ max (|close - st.cur| * 1.5) (st.cur * 0.05) :=
        le_max_left _ _
      nlinarith
  · exact max_le hcur hcloseC

theorem preGo_mem (s : RStream) (phases : List PhaseDescriptor) (vol : ℝ) (n : ℕ)
    (hs : ∀ k, 0 ≤ s k) :
    ∀ fuel i st, st.cur ≤ BONDING_MCAP * 1000 →
      ∀ c ∈ (preGo s phases vol n fuel i st).1,
        10000 ≤ c.volume ∧ 0 ≤ c.low ∧ max c.open_ c.close ≤ c.high
  | 0, _, _, _, c, hc => by simp [preGo] at hc
  | fuel + 1, i, st, hcur, c, hc => by
      have hstep := preStep_candle s phases vol n i st hs hcur
      rcases List.mem_cons.mp (by simpa [preGo] using hc) with h | h
      · subst h
        exact ⟨hstep.1, hstep.2.1, hstep.2.2.1⟩
      · exact preGo_mem s phases vol n hs fuel (i + 1) _ hstep.2.2.2 c h

theorem organicStep_candle (s : RStream) (vol : ℝ) (i si : ℕ) (cur volAvg : ℝ) :
    15000 ≤ (organicStep s vol i si cur volAvg).1.volume ∧
    (organicStep s vol i si cur volAvg).1.close ≤ BONDING_MCAP ∧
    (organicStep s vol i si cur volAvg).1.high ≤ BONDING_MCAP * 1.005 := by
  simp only [organicStep]
  exact ⟨le_max_left _ _, clamp_le _ _, min_le_right _ _⟩

theorem organicGo_mem (s : RStream) (vol : ℝ) :
    ∀ fuel i si cur volAvg, ∀ c ∈ (organicGo s vol fuel i si cur volAvg).1,
      15000 ≤ c.volume ∧ c.close ≤ BONDING_MCAP ∧ c.high ≤ BONDING_MCAP * 1.005
  | 0, _, _, _, _, c, hc => by simp [organicGo] at hc
  | fuel + 1, i, si, cur, volAvg, c, hc => by
      rcases List.mem_cons.mp (by simpa [organicGo] using hc) with h | h
      · subst h
        exact organicStep_candle s vol i si cur volAvg
      · exact organicGo_mem s vol fuel (i + 1) _ _ _ c h

theorem pumpClamp_le (c0 r : ℝ) (b : Prop) [Decidable b] (hr : r ≤ 1) :
    (if c0 > BONDING_MCAP then
      (if b then BONDING_MCAP * (0.995 + r * 0.01) else BONDING_MCAP) else c0) ≤
      BONDING_MCAP * 1.005 := by
  rw [BONDING_MCAP]
  split
  · split
    · nlinarith
    · norm_num
  · rename_i h
    nlinarith [not_lt.mp h]

theorem pumpStep_candle (s : RStream) (vol : ℝ) (ph : PumpPhase) (si : ℕ)
    (cur volAvg : ℝ) (hs : ∀ k, s k ≤ 1) :
    20000 ≤ (pumpStep s vol ph si cur volAvg).1.volume ∧
    (pumpStep s vol ph si cur volAvg).1.close ≤ BONDING_MCAP * 1.005 ∧
    (pumpStep s vol ph si cur volAvg).1.high ≤ BONDING_MCAP * 1.01 := by
  simp only [pumpStep]
  exact ⟨le_max_left _ _, pumpClamp_le _ _ _ (hs (si + 2)), min_le_right _ _⟩

theorem pumpPhaseGo_mem (s : RStream) (vol : ℝ) (n : ℕ) (ph : PumpPhase)
    (hs : ∀ k, s k ≤ 1) :
    ∀ fuel cnt si cur volAvg, ∀ c ∈ (pumpPhaseGo s vol n ph fuel cnt si cur volAvg).1,
      20000 ≤ c.volume ∧ c.close ≤ BONDING_MCAP * 1.005 ∧ c.high ≤ BONDING_MCAP * 1.01
  | 0, _, _, _, _, c, hc => by simp [pumpPhaseGo] at hc
  | fuel + 1, cnt, si, cur, volAvg, c, hc => by
      by_cases h : cnt < n
      · rcases List.mem_cons.mp (by simpa [pumpPhaseGo, if_pos h] using hc) with h1 | h1
        · subst h1
          exact pumpStep_candle s vol ph si cur volAvg hs
        · exact pumpPhaseGo_mem s vol n ph hs fuel (cnt + 1) _ _ _ c h1
      · simp [pumpPhaseGo, if_neg h] at hc

theorem pumpGo_mem (s : RStream) (vol : ℝ) (n : ℕ) (hs : ∀ k, s k ≤ 1) :
    ∀ (phs : List PumpPhase) cnt si cur volAvg,
      ∀ c ∈ (pumpGo s vol n phs cnt si cur volAvg).1,
        20000 ≤ c.volume ∧ c.close ≤ BONDING_MCAP * 1.005 ∧ c.high ≤ BONDING_MCAP * 1.01
  | [], _, _, _, _, c, hc => by simp [pumpGo] at hc
  | ph :: rest, cnt, si, cur, volAvg, c, hc => by
      rcases List.mem_append.mp (by simpa [pumpGo] using hc) with h | h
      · exact pumpPhaseGo_mem s vol n ph hs ph.duration cnt si cur volAvg c h
      · exact pumpGo_mem s vol n hs rest _ _ _ _ c h

theorem rugGo_volume (s u : RStream) (vol : ℝ) (rugP : ℕ) (hu : ∀ k, 0 ≤ u k) :
    ∀ fuel i si ui cur, ∀ c ∈ (rugGo s u vol rugP fuel i si ui cur).1, 0 < c.volume
  | 0, _, _, _, _, c, hc => by simp [rugGo] at hc
  | fuel + 1, i, si, ui, cur, c, hc => by
      rcases List.mem_cons.mp (by simpa [rugGo] using hc) with h | h
      · subst h
        simp only [rugStep]
        have := hu ui
        split
        · nlinarith
        · split
          · nlinarith
          · nlinarith
      · exact rugGo_volume s u vol rugP hu fuel (i + 1) _ _ _ c h

theorem bleedGo_volume (s u : RStream) (vol bd : ℝ) (n : ℕ) (hu : ∀ k, 0 ≤ u k) :
    ∀ fuel i si ui cur, i + fuel = n →
      ∀ c ∈ (bleedGo s u vol bd n fuel i si ui cur).1, 0 < c.volume
  | 0, _, _, _, _, _, c, hc => by simp [bleedGo] at hc
  | fuel + 1, i, si, ui, cur, hfi, c, hc => by
      rcases List.mem_cons.mp (by simpa [bleedGo] using hc) with h | h
      · subst h
        simp only [bleedStep]
        have hu3 := hu (ui + 3)
        have hin : (i : ℝ) / (n : ℝ) < 1 := by
          have hn : 0 < n := by omega
          rw [div_lt_one (by exact_mod_cast hn)]
          exact_mod_cast (by omega : i < n)
        nlinarith
      · exact bleedGo_volume s u vol bd n hu fuel (i + 1) _ _ _ (by omega) c h

theorem consolGo_volume (s u : RStream) (vol M bu : ℝ) (n ce : ℕ)
    (hu : ∀ k, 0 ≤ u k) :
    ∀ fuel i si ui cur, ∀ c ∈ (consolGo s u vol M bu n ce fuel i si ui cur).1, 0 < c.volume
  | 0, _, _, _, _, c, hc => by simp [consolGo] at hc
  | fuel + 1, i, si, ui, cur, c, hc => by
      rcases List.mem_cons.mp (by simpa [consolGo] using hc) with h | h
      · subst h
        simp only [consolStep]
        have := hu ui
        split
        · nlinarith
        · nlinarith
      · exact consolGo_volume s u vol M bu n ce hu fuel (i + 1) _ _ _ c h

theorem generatePostBonding_volume (startMcap : ℝ) (scenario volatility : String)
    (s u : RStream) (si ui : ℕ) (hs : ∀ k, 0 ≤ s k ∧ s k ≤ 1) (hu : ∀ k, 0 ≤ u k) :
    ∀ c ∈ (generatePostBonding startMcap scenario volatility s u si ui).1, 0 < c.volume := by
  intro c hc
  have hs1 : ∀ k, s k ≤ 1 := fun k => (hs k).2
  unfold generatePostBonding at hc
  split at hc
  · have := organicGo_mem s _ _ 0 _ _ _ c hc
    linarith [this.1]
  · split at hc
    · have := pumpGo_mem s _ _ hs1 _ 0 _ _ _ c hc
      linarith [this.1]
    · split at hc
      · exact rugGo_volume s u _ _ hu _ 0 _ _ _ c hc
      · split at hc
        · refine bleedGo_volume s u _ _ _ hu _ 0 _ _ _ (by omega) c hc
        · split at hc
          · exact consolGo_volume s u _ _ _ _ _ hu _ 0 _ _ _ c hc
          · have := organicGo_mem s _ _ 0 _ _ _ c hc
            linarith [this.1]

theorem generateData_volume (opts : Options) (s u : RStream)
    (hs : ∀ k, 0 ≤ s k ∧ s k ≤ 1) (hu : ∀ k, 0 ≤ u k) :
    ∀ c ∈ generateData opts s u, 0 < c.volume := by
  intro c hc
  have hs0 : ∀ k, 0 ≤ s k := fun k => (hs k).1
  have hprevol : ∀ c' ∈ (generatePreBonding opts.volatility s 0).1, 0 < c'.volume := by
    intro c' hc'
    unfold generatePreBonding generatePreBondingWith at hc'
    have := preGo_mem s marketPhases (preVol opts.volatility) _ hs0 _ 0
      ⟨0 + 1, INITIAL_MCAP, 0, 0, ssMean [50000, 150000]⟩
      (by rw [INITIAL_MCAP, BONDING_MCAP]; norm_num) c' hc'
    linarith [this.1]
  unfold generateData at hc
  by_cases hpre : opts.chartType = "full" ∨ opts.chartType = "pre" <;>
    by_cases hpost : opts.chartType = "full" ∨ opts.chartType = "post"
  · simp only [if_pos hpre, if_pos hpost] at hc
    rcases List.mem_append.mp hc with h | h
    · exact hprevol c h
    · exact generatePostBonding_volume _ _ _ s u _ _ hs hu c h
  · simp only [if_pos hpre, if_neg hpost] at hc
    exact hprevol c hc
  · simp only [if_neg hpre, if_pos hpost] at hc
    simp only [List.length_nil, lt_self_iff_false, if_false, List.nil_append] at hc
    exact generatePostBonding_volume _ _ _ s u _ _ hs hu c hc
  · simp only [if_neg hpre, if_neg hpost] at hc
    exact absurd hc (List.not_mem_nil c)

/-! ### Bias-irrelevance infrastructure (claim C10) -/

theorem findPhase_map_bias (f : PhaseDescriptor → ℝ) :
    ∀ (l : List PhaseDescriptor) (prog : ℝ),
      findPhase (l.map fun p => { p with bias := f p }) prog =
        (findPhase l prog).map fun p => { p with bias := f p }
  | [], _ => rfl
  | p :: ps, prog => by
      simp only [List.map_cons, findPhase]
      by_cases h : prog ≥ p.start ∧ prog < p.end_
      · rw [if_pos h, if_pos h]
        rfl
      · rw [if_neg h, if_neg h]
        exact findPhase_map_bias f ps prog

theorem getLastD_map_bias (f : PhaseDescriptor → ℝ) :
    ∀ (l : List PhaseDescriptor) (d : PhaseDescriptor),
      (l.map fun p => { p with bias := f p }).getLastD
          ({ d with bias := f d }) =
        { l.getLastD d with bias := f (l.getLastD d) }
  | [], _ => rfl
  | p :: r, d => by
      simp only [List.map_cons, List.getLastD_cons]
      exact getLastD_map_bias f r p

theorem phaseFor_map_bias_volMult (f : PhaseDescriptor → ℝ)
    (l : List PhaseDescriptor) (hl : l ≠ []) (prog : ℝ) :
    (phaseFor (l.map fun p => { p with bias := f p }) prog).volMult =
      (phaseFor l prog).volMult := by
  unfold phaseFor
  rw [findPhase_map_bias]
  cases hfp : findPhase l prog with
  | some p => rfl
  | none =>
      simp only [Option.map_none', Option.getD_none]
      cases l with
      | nil => exact absurd rfl hl
      | cons p r =>
          simp only [List.map_cons, List.getLastD_cons]
          rw [getLastD_map_bias f r p]

theorem preGo_phases_congr (s : RStream) (vol : ℝ) (n : ℕ)
    (ph1 ph2 : List PhaseDescriptor)
    (hv : ∀ prog, (phaseFor ph1 prog).volMult = (phaseFor ph2 prog).volMult) :
    ∀ fuel i st, preGo s ph1 vol n fuel i st = preGo s ph2 vol n fuel i st
  | 0, _, _ => rfl
  | fuel + 1, i, st => by
      have hstep : preStep s ph1 vol n i st = preStep s ph2 vol n i st := by
        unfold preStep
        dsimp only
        rw [hv ((i : ℝ) / ((n : ℝ) - 1))]
      simp only [preGo, hstep, preGo_phases_congr s vol n ph1 ph2 hv fuel (i + 1)]

/-! ### Claims -/


/-- C8, counterexample to the "if and only if": at step 0 of a 150-candle
run with `currentCap = 5000 = expectedCap`, the mean-reversion term is zero
even though `currentCap` is not above the breakout threshold
`1.5 * expectedCap = 7500`. -/
theorem c8_counterexample :
    preMarketMemory 150 0 5000 = 0 ∧ ¬ ((5000 : ℝ) > 1.5 * expectedCapSpec 150 0) := by
  constructor
  · unfold preMarketMemory jsOr
    rw [INITIAL_MCAP, BONDING_MCAP]
    dsimp only
    norm_num
  · unfold expectedCapSpec
    norm_num

/-- C8 (amended): for `i < N`, `N ≥ 2` and `currentCap ≠ 0`, the pre-bonding
mean-reversion term equals zero **if** `currentCap > 1.5 * expectedCap`
(where `expectedCap = 5000 + (0.4·100000 − 5000)·i/(N−1)`), and otherwise
equals `(expectedCap − currentCap)/|currentCap| · 0.008` — which also
vanishes when `currentCap = expectedCap`, so "zero iff broken out" fails but
"zero if broken out, else the reversion formula" holds.  The term is a pure
function of the current step values `(N, i, currentCap)` alone (no latch),
and the final two conjuncts exhibit it switching off and then on again at
consecutive steps for one and the same `currentCap = 8000`. -/
theorem c8_reversion :
    (∀ (N i : ℕ) (cur : ℝ), i < N → 2 ≤ N → cur ≠ 0 →
      preMarketMemory N i cur =
        if cur > 1.5 * expectedCapSpec N i then 0
        else (expectedCapSpec N i - cur) / |cur| * 0.008) ∧
    preMarketMemory 150 1 8000 = 0 ∧ preMarketMemory 150 2 8000 ≠ 0 := by
  refine ⟨?_, ?_, ?_⟩
  · intro N i cur hiN hN2 hcur
    have hN1 : (1 : ℝ) ≤ (N : ℝ) - 1 := by
      have : (2 : ℝ) ≤ (N : ℝ) := by exact_mod_cast hN2
      linarith
    have hprog : (i : ℝ) / ((N : ℝ) - 1) ≤ 1 := by
      rw [div_le_one (by linarith)]
      have : (i : ℝ) + 1 ≤ (N : ℝ) := by exact_mod_cast hiN
      linarith
    unfold preMarketMemory expectedCapSpec jsOr
    rw [INITIAL_MCAP, BONDING_MCAP, if_neg hcur]
    dsimp only
    have hmin : min ((i : ℝ) / ((N : ℝ) - 1) * 1.0) 1.0 = (i : ℝ) / ((N : ℝ) - 1) := by
      rw [show (1.0 : ℝ) = 1 by norm_num, mul_one]
      exact min_eq_left hprog
    rw [hmin]
    split_ifs with h1 h2 h2
    · rfl
    · exact absurd (by linarith) h2
    · exact absurd (by linarith) h1
    · ring_nf
  · unfold preMarketMemory jsOr
    rw [INITIAL_MCAP, BONDING_MCAP]
    dsimp only
    push_cast
    rw [min_eq_left (by norm_num)]
    rw [if_pos (by norm_num)]
  · unfold preMarketMemory jsOr
    rw [INITIAL_MCAP, BONDING_MCAP]
    dsimp only
    push_cast
    rw [min_eq_left (by norm_num)]
    rw [if_neg (by norm_num)]
    norm_num

/-- C8 witness: the reversion formula instantiated at step 3 of a 150-candle
run with `currentCap = 6000`. -/
theorem c8_reversion_witness :
    preMarketMemory 150 3 6000 =
      if (6000 : ℝ) > 1.5 * expectedCapSpec 150 3 then 0
      else (expectedCapSpec 150 3 - 6000) / |(6000 : ℝ)| * 0.008 :=
  c8_reversion.1 150 3 6000 (by norm_num) (by norm_num) (by norm_num)

/-- C7, counterexample: `generatePostBonding` with the unrecognized scenario
name `"banana"` does not fail; it produces a nonempty chart identical to the
organic scenario's (the `default:` branch of the dispatch). -/
theorem c7_counterexample :
    (generatePostBonding 100000 "banana" "medium" (constS (1/4)) (constS (1/4)) 0 0).1 ≠ [] ∧
    generatePostBonding 100000 "banana" "medium" (constS (1/4)) (constS (1/4)) 0 0 =
      generatePostBonding 100000 "organic" "medium" (constS (1/4)) (constS (1/4)) 0 0 := by
  constructor
  · exact (generatePostBonding_length 100000 "banana" "medium"
      (constS (1/4)) (constS (1/4)) 0 0).2
  · unfold generatePostBonding
    rw [if_neg (show ¬("banana" : String) = "organic" by decide),
        if_neg (show ¬("banana" : String) = "pump_dump" by decide),
        if_neg (show ¬("banana" : String) = "instant_rug" by decide),
        if_neg (show ¬("banana" : String) = "slow_bleed" by decide),
        if_neg (show ¬("banana" : String) = "consolidation" by decide),
        if_pos (show ("organic" : String) = "organic" from rfl)]

/-- C7 (amended): a scenario name outside the five recognized ones is not
rejected: `generatePostBonding` silently falls back to the organic generator
(`default: return this.generateOrganic(...)`). -/
theorem c7_default_organic (startMcap : ℝ) (scenario volatility : String)
    (s u : RStream) (si ui : ℕ) (h1 : scenario ≠ "organic")
    (h2 : scenario ≠ "pump_dump") (h3 : scenario ≠ "instant_rug")
    (h4 : scenario ≠ "slow_bleed") (h5 : scenario ≠ "consolidation") :
    generatePostBonding startMcap scenario volatility s u si ui =
      generatePostBonding startMcap "organic" volatility s u si ui := by
  unfold generatePostBonding
  simp [h1, h2, h3, h4, h5]

/-- C7 witness: the fallback instantiated at the scenario name `"bogus"`. -/
theorem c7_default_organic_witness :
    generatePostBonding 100000 "bogus" "low" (constS (1/2)) (constS (1/2)) 0 0 =
      generatePostBonding 100000 "organic" "low" (constS (1/2)) (constS (1/2)) 0 0 :=
  c7_default_organic 100000 "bogus" "low" (constS (1/2)) (constS (1/2)) 0 0
    (by decide) (by decide) (by decide) (by decide) (by decide)

/-- C10: the per-phase `bias` fields of the six pre-bonding market phases
never enter the per-candle return: replacing every bias by an arbitrary value
leaves the generated pre-bonding candle sequence (and final stream position)
unchanged, because `totalChangePercent` sums only the shock, momentum,
memory, cycle and reversion terms and a phase is read only through its
`volMult`. -/
theorem c10_bias_unused (f : PhaseDescriptor → ℝ) (volatility : String)
    (s : RStream) (si : ℕ) :
    generatePreBondingWith (marketPhases.map fun p => { p with bias := f p })
      volatility s si = generatePreBonding volatility s si := by
  unfold generatePreBonding generatePreBondingWith
  exact preGo_phases_congr s (preVol volatility) (randomInt s si 150 400)
    _ _ (phaseFor_map_bias_volMult f marketPhases (by simp [marketPhases])) _ 0 _

/-- C5, counterexample: at the requested `numCandles = 501` the pump & dump
generator emits only `125 + 125 + 75 + 175 = 500` candles — the four phase
durations are floors of `0.25/0.25/0.15/0.35` shares and nothing absorbs the
rounding remainder. -/
theorem c5_counterexample :
    (generatePumpDump 100000 501 "medium" (constS (1/4)) 0).1.length ≠ 501 := by
  unfold generatePumpDump pumpPhases
  simp only [pumpGo, List.length_append, List.length_nil, pumpPhaseGo_length,
    pumpPhaseGo_cnt, Nat.sub_zero, Nat.zero_add, Nat.add_zero]
  omega

/-- C5 (amended): the organic, instant-rug, slow-bleed and consolidation
generators emit exactly the requested `numCandles`; the pump & dump generator
instead emits `⌊0.25n⌋ + ⌊0.25n⌋ + ⌊0.15n⌋ + ⌊0.35n⌋` candles, which is at
most `n` (equality only when every share is exact, e.g. `100 ∣ n` up to the
shares' denominators) — the rounding remainder is dropped, not absorbed by
the last sub-phase. -/
theorem c5_phase_counts (startMcap : ℝ) (n : ℕ) (volatility : String)
    (s u : RStream) (si ui : ℕ) :
    (generateOrganic startMcap n volatility s si).1.length = n ∧
    (generateInstantRug startMcap n volatility s u si ui).1.length = n ∧
    (generateSlowBleed startMcap n volatility s u si ui).1.length = n ∧
    (generateConsolidation startMcap n volatility s u si ui).1.length = n ∧
    (generatePumpDump startMcap n volatility s si).1.length =
      n * 25 / 100 + n * 25 / 100 + n * 15 / 100 + n * 35 / 100 ∧
    n * 25 / 100 + n * 25 / 100 + n * 15 / 100 + n * 35 / 100 ≤ n := by
  refine ⟨?_, ?_, ?_, ?_, ?_, by omega⟩
  · dsimp only [generateOrganic]
    exact organicGo_length _ _ _ _ _ _ _
  · dsimp only [generateInstantRug]
    exact rugGo_length _ _ _ _ _ _ _ _ _
  · dsimp only [generateSlowBleed]
    exact bleedGo_length _ _ _ _ _ _ _ _ _ _
  · dsimp only [generateConsolidation]
    exact consolGo_length _ _ _ _ _ _ _ _ _ _ _ _
  · unfold generatePumpDump pumpPhases
    simp only [pumpGo, List.length_append, List.length_nil, pumpPhaseGo_length,
      pumpPhaseGo_cnt, Nat.sub_zero, Nat.zero_add, Nat.add_zero]
    omega

theorem chainFrom_head? : ∀ (l : List Candle) (a : ℝ) (c : Candle),
    chainFrom a l → l.head? = some c → c.open_ = a
  | [], _, _, _, h => by simp at h
  | k :: ks, a, c, hc, h => by
      obtain rfl : k = c := by simpa using h
      exact hc.1

theorem attachTimes_head?_open (now : ℤ) (t : ℕ) (l : List Candle) (i : ℕ)
    (h : l ≠ []) :
    ∃ tc c, (attachTimes now t i l).head? = some tc ∧ l.head? = some c ∧
      tc.open_ = c.open_ := by
  cases l with
  | nil => exact absurd rfl h
  | cons c cs => exact ⟨_, c, rfl, rfl, rfl⟩

theorem generateData_ne_nil (opts : Options) (s u : RStream)
    (h : opts.chartType = "full" ∨ opts.chartType = "pre" ∨ opts.chartType = "post") :
    generateData opts s u ≠ [] := by
  unfold generateData
  dsimp only
  by_cases hpre : opts.chartType = "full" ∨ opts.chartType = "pre"
  · rw [if_pos hpre]
    by_cases hpost : opts.chartType = "full" ∨ opts.chartType = "post"
    · rw [if_pos hpost]
      intro hnil
      exact (generatePreBonding_length opts.volatility s 0).2
        (List.append_eq_nil.mp hnil).1
    · rw [if_neg hpost]
      exact (generatePreBonding_length opts.volatility s 0).2
  · have hpost : opts.chartType = "full" ∨ opts.chartType = "post" := by tauto
    rw [if_neg hpre, if_pos hpost]
    intro hnil
    exact (generatePostBonding_length _ _ opts.volatility s u _ _).2
      (List.append_eq_nil.mp hnil).2

/-- C4: continuity of the full series — every candle after the first opens at
its predecessor's close (in particular the post-bonding segment of a `"full"`
chart starts at the last pre-bonding close, which `generate` reads off the
assembled data); the very first open is the initial capitalization 5000 when a
pre-bonding segment is generated (`chartType` `"full"` or `"pre"`), and the
bonding threshold 100000 for `chartType` `"post"`. -/
theorem c4_continuity (opts : Options) (s u : RStream) (now : ℤ) :
    (∀ i (h : i + 1 < (generate opts s u now).data.length),
      ((generate opts s u now).data.get ⟨i + 1, h⟩).open_ =
        ((generate opts s u now).data.get ⟨i, Nat.lt_of_succ_lt h⟩).close) ∧
    ((opts.chartType = "full" ∨ opts.chartType = "pre") →
      ∃ c, (generate opts s u now).data.head? = some c ∧ c.open_ = INITIAL_MCAP) ∧
    (opts.chartType = "post" →
      ∃ c, (generate opts s u now).data.head? = some c ∧ c.open_ = BONDING_MCAP) := by
  obtain ⟨a, hchain, hfp, hp⟩ := generateData_chain opts s u
  have hdata : (generate opts s u now).data =
      attachTimes now (generateData opts s u).length 0 (generateData opts s u) := rfl
  refine ⟨?_, ?_, ?_⟩
  · intro i h
    have h0 : i + 1 < (attachTimes now (generateData opts s u).length 0
        (generateData opts s u)).length := by rw [← hdata]; exact h
    have h' : i + 1 < (generateData opts s u).length := by
      rw [← attachTimes_length now (generateData opts s u).length 0 (generateData opts s u)]
      exact h0
    have hg1 := attachTimes_get now (generateData opts s u).length (generateData opts s u)
      0 (i + 1) h0 h'
    have hg0 := attachTimes_get now (generateData opts s u).length (generateData opts s u)
      0 i (Nat.lt_of_succ_lt h0) (Nat.lt_of_succ_lt h')
    calc ((generate opts s u now).data.get ⟨i + 1, h⟩).open_
        = ((generateData opts s u).get ⟨i + 1, h'⟩).open_ := hg1.1
      _ = ((generateData opts s u).get ⟨i, Nat.lt_of_succ_lt h'⟩).close :=
          chainFrom_get _ a hchain i h'
      _ = ((generate opts s u now).data.get ⟨i, Nat.lt_of_succ_lt h⟩).close :=
          hg0.2.2.2.1.symm
  · intro hct
    have hne : generateData opts s u ≠ [] :=
      generateData_ne_nil opts s u (by tauto)
    obtain ⟨tc, c, h1, h2, h3⟩ :=
      attachTimes_head?_open now (generateData opts s u).length (generateData opts s u) 0 hne
    refine ⟨tc, by rw [hdata]; exact h1, ?_⟩
    rw [h3, chainFrom_head? _ a c hchain h2, hfp hct]
  · intro hct
    have hne : generateData opts s u ≠ [] :=
      generateData_ne_nil opts s u (Or.inr (Or.inr hct))
    obtain ⟨tc, c, h1, h2, h3⟩ :=
      attachTimes_head?_open now (generateData opts s u).length (generateData opts s u) 0 hne
    have hB : a = BONDING_MCAP := by
      rcases hp with hfp' | hB
      · rcases hfp' with h' | h' <;> rw [h'] at hct <;> exact absurd hct (by decide)
      · exact hB
    refine ⟨tc, by rw [hdata]; exact h1, ?_⟩
    rw [h3, chainFrom_head? _ a c hchain h2, hB]

/-- C4 witness: a `"post"` chart on concrete streams opens at the bonding
threshold. -/
theorem c4_continuity_witness :
    ∃ c, (generate ⟨"post", "organic", "medium"⟩ (constS (1/2)) (constS (1/2)) 0).data.head? =
        some c ∧ c.open_ = BONDING_MCAP :=
  (c4_continuity ⟨"post", "organic", "medium"⟩ (constS (1/2)) (constS (1/2)) 0).2.2 rfl

theorem head?_eq_headD0 (l : List ℝ) (h : l ≠ []) : l.head? = some (l.headD 0) := by
  cases l with
  | nil => exact absurd rfl h
  | cons a as => rfl

theorem getLast?_eq_getLastD0 (l : List ℝ) (h : l ≠ []) :
    l.getLast? = some (l.getLastD 0) := by
  rw [List.getLastD_eq_getLast?, List.getLast?_eq_getLast l h]
  rfl

/-- C9: the metadata of a generated chart has `startMcap` equal to the first
candle's **close** (hence in general different from the configured initial
capitalization, which is the first open), `finalMcap` the last close,
`peakMcap` the maximum close (an upper bound on every close that is itself
attained), `minMcap` the minimum close, and `totalCandles` the sequence
length; for an empty sequence the metadata is the empty record (`none`). -/
theorem c9_metadata (opts : Options) (s u : RStream) (now : ℤ) :
    ((generate opts s u now).data = [] → (generate opts s u now).metadata = none) ∧
    ((generate opts s u now).data ≠ [] →
      ∃ m, (generate opts s u now).metadata = some m ∧
        ((generate opts s u now).data.map TimedCandle.close).head? = some m.startMcap ∧
        ((generate opts s u now).data.map TimedCandle.close).getLast? = some m.finalMcap ∧
        (∀ x ∈ (generate opts s u now).data.map TimedCandle.close, x ≤ m.peakMcap) ∧
        m.peakMcap ∈ (generate opts s u now).data.map TimedCandle.close ∧
        (∀ x ∈ (generate opts s u now).data.map TimedCandle.close, m.minMcap ≤ x) ∧
        m.minMcap ∈ (generate opts s u now).data.map TimedCandle.close ∧
        m.totalCandles = (generate opts s u now).data.length) := by
  have hdata : (generate opts s u now).data =
      attachTimes now (generateData opts s u).length 0 (generateData opts s u) := rfl
  have hmeta : (generate opts s u now).metadata =
      calculateMetadata (generateData opts s u) := rfl
  have hmap : (generate opts s u now).data.map TimedCandle.close =
      (generateData opts s u).map Candle.close := by
    rw [hdata]; exact attachTimes_map_close now _ _ 0
  constructor
  · intro hnil
    have hDnil : generateData opts s u = [] := by
      rw [hdata] at hnil
      exact (attachTimes_eq_nil_iff now _ _ 0).mp hnil
    rw [hmeta]
    unfold calculateMetadata
    rw [if_pos hDnil]
  · intro hne
    have hDne : generateData opts s u ≠ [] := by
      intro hD
      apply hne
      rw [hdata, hD]
      rfl
    have hmapne : (generateData opts s u).map Candle.close ≠ [] :=
      fun hm => hDne (List.map_eq_nil_iff.mp hm)
    rw [hmeta]
    unfold calculateMetadata
    rw [if_neg hDne]
    dsimp only
    refine ⟨_, rfl, ?_, ?_, ?_, ?_, ?_, ?_, ?_⟩
    · rw [hmap]; exact head?_eq_headD0 _ hmapne
    · rw [hmap]; exact getLast?_eq_getLastD0 _ hmapne
    · rw [hmap]; intro x hx; exact le_listMax _ x hx
    · rw [hmap]; exact listMax_mem _ hmapne
    · rw [hmap]; intro x hx; exact listMin_le _ x hx
    · rw [hmap]; exact listMin_mem _ hmapne
    · rw [hdata, attachTimes_length]

/-- C9 witness: an unknown chart type produces no candles, and the metadata is
the empty record. -/
theorem c9_metadata_witness :
    (generate ⟨"none", "organic", "medium"⟩ (constS (1/2)) (constS (1/2)) 0).metadata = none := by
  apply (c9_metadata ⟨"none", "organic", "medium"⟩ (constS (1/2)) (constS (1/2)) 0).1
  have hD : generateData ⟨"none", "organic", "medium"⟩ (constS (1/2)) (constS (1/2)) = [] := by
    unfold generateData
    dsimp only
    rw [if_neg (show ¬(("none" : String) = "full" ∨ ("none" : String) = "post") by decide),
      if_neg (show ¬(("none" : String) = "full" ∨ ("none" : String) = "pre") by decide)]
  show attachTimes 0 (generateData ⟨"none", "organic", "medium"⟩ (constS (1/2))
      (constS (1/2))).length 0 (generateData ⟨"none", "organic", "medium"⟩ (constS (1/2))
      (constS (1/2))) = []
  rw [hD]
  rfl

theorem preGo_succ (s : RStream) (phases : List PhaseDescriptor) (vol : ℝ)
    (n fuel i : ℕ) (st : PreState) :
    (preGo s phases vol n (fuel + 1) i st).1 =
      (preStep s phases vol n i st).1 ::
        (preGo s phases vol n fuel (i + 1) (preStep s phases vol n i st).2).1 := rfl

theorem rugGo_succ (s u : RStream) (vol : ℝ) (rugP fuel i si ui : ℕ) (cur : ℝ) :
    (rugGo s u vol rugP (fuel + 1) i si ui cur).1 =
      (rugStep s u vol rugP i si ui cur).1 ::
        (rugGo s u vol rugP fuel (i + 1) (rugStep s u vol rugP i si ui cur).2.1
          (rugStep s u vol rugP i si ui cur).2.2.1
          (rugStep s u vol rugP i si ui cur).2.2.2).1 := rfl

theorem consolGo_succ (s u : RStream) (vol M bu : ℝ) (n ce fuel i si ui : ℕ) (cur : ℝ) :
    (consolGo s u vol M bu n ce (fuel + 1) i si ui cur).1 =
      (consolStep s u vol M bu n ce i si ui cur).1 ::
        (consolGo s u vol M bu n ce fuel (i + 1)
          (consolStep s u vol M bu n ce i si ui cur).2.1
          (consolStep s u vol M bu n ce i si ui cur).2.2.1
          (consolStep s u vol M bu n ce i si ui cur).2.2.2).1 := rfl

theorem attachTimes_mem_of (now : ℤ) (total : ℕ) :
    ∀ (l : List Candle) (i : ℕ) (c : Candle), c ∈ l →
      ∃ tc ∈ attachTimes now total i l, tc.open_ = c.open_ ∧ tc.high = c.high ∧
        tc.low = c.low ∧ tc.close = c.close ∧ tc.volume = c.volume
  | [], _, c, h => absurd h (List.not_mem_nil c)
  | k :: ks, i, c, h => by
      rcases List.mem_cons.mp h with h1 | h1
      · subst h1
        exact ⟨_, List.mem_cons_self _ _, rfl, rfl, rfl, rfl, rfl⟩
      · obtain ⟨tc, htc, hf⟩ := attachTimes_mem_of now total ks (i + 1) c h1
        exact ⟨tc, List.mem_cons_of_mem _ htc, hf⟩


theorem c1_gauss : gaussianRandom c1SeedStream 1 = -5 := by
  have h1 : c1SeedStream 1 = Real.exp (-12.5) := by norm_num [c1SeedStream]
  have h2 : c1SeedStream (1 + 1) = 1/2 := by norm_num [c1SeedStream]
  unfold gaussianRandom
  rw [h1, h2, Real.log_exp]
  rw [show (-2.0 : ℝ) * (-12.5) = 5 ^ 2 by norm_num]
  rw [Real.sqrt_sq (by norm_num)]
  rw [show (2.0 : ℝ) * Real.pi * (1 / 2 : ℝ) = Real.pi by ring]
  rw [Real.cos_pi]
  norm_num

set_option maxRecDepth 8000 in
theorem c1_first_candle :
    (preStep c1SeedStream marketPhases 0.35 150 0 ⟨1, INITIAL_MCAP, 0, 0, 100000⟩).1.close = -250 ∧
    (preStep c1SeedStream marketPhases 0.35 150 0 ⟨1, INITIAL_MCAP, 0, 0, 100000⟩).1.open_ = 5000 ∧
    0 ≤ (preStep c1SeedStream marketPhases 0.35 150 0 ⟨1, INITIAL_MCAP, 0, 0, 100000⟩).1.low := by
  have hph : phaseFor marketPhases (((0 : ℕ) : ℝ) / (((150 : ℕ) : ℝ) - 1)) =
      ⟨"early_accumulation", 0.0, 0.15, 0.002, 0.6⟩ := by
    rw [show (((0 : ℕ) : ℝ) / (((150 : ℕ) : ℝ) - 1)) = 0 by norm_num]
    unfold phaseFor marketPhases findPhase
    rw [if_pos (by norm_num)]
    rfl
  have hmm0 : preMarketMemory 150 0 INITIAL_MCAP = 0 := by
    unfold preMarketMemory jsOr
    rw [INITIAL_MCAP, BONDING_MCAP]
    dsimp only
    push_cast
    norm_num [min_def]
  have hsin : Real.sin (((0 : ℕ) : ℝ) * 0.05) = 0 := by
    norm_num
  refine ⟨?_, rfl, ?_⟩
  · simp only [preStep]
    rw [c1_gauss, hph, hmm0, hsin]
    dsimp only
    rw [INITIAL_MCAP, BONDING_MCAP]
    rw [if_neg (by norm_num)]
    norm_num
  · exact le_max_right _ _

/-- C1, counterexample: pre-bonding candidate closes have no floor, so with
volatility `"extreme"` a −5σ Box–Muller shock at the very first candle gives
`totalChangePercent = −1.05` and a close of `5000 · (1 − 1.05) = −250 < 0`,
while `low` is clamped up to `0 > min(open, close)`: "all prices strictly
positive" and "`low ≤ min(open, close)`" both fail on this candle. -/
theorem c1_counterexample :
    ∃ c ∈ (generate ⟨"pre", "organic", "extreme"⟩ c1SeedStream (constS (1/4)) 0).data,
      c.close < 0 ∧ min c.open_ c.close < c.low := by
  obtain ⟨hclose, hopen, hlow⟩ := c1_first_candle
  have hD : generateData ⟨"pre", "organic", "extreme"⟩ c1SeedStream (constS (1/4)) =
      (preGo c1SeedStream marketPhases 0.35 150 150 0 ⟨1, INITIAL_MCAP, 0, 0, 100000⟩).1 := by
    unfold generateData
    dsimp only
    rw [if_neg (show ¬(("pre" : String) = "full" ∨ ("pre" : String) = "post") by decide),
        if_pos (show ("pre" : String) = "full" ∨ ("pre" : String) = "pre" by decide)]
    unfold generatePreBonding generatePreBondingWith
    dsimp only
    rw [show randomInt c1SeedStream 0 150 400 = 150 by
          unfold randomInt
          norm_num [c1SeedStream]]
    rw [show preVol "extreme" = 0.35 by simp [preVol]]
    rw [show ssMean [50000, 150000] = (100000 : ℝ) by unfold ssMean; norm_num]
  have hmem : (preStep c1SeedStream marketPhases 0.35 150 0 ⟨1, INITIAL_MCAP, 0, 0, 100000⟩).1 ∈
      (preGo c1SeedStream marketPhases 0.35 150 150 0 ⟨1, INITIAL_MCAP, 0, 0, 100000⟩).1 := by
    rw [show (150 : ℕ) = 149 + 1 by norm_num, preGo_succ]
    exact List.mem_cons_self _ _
  obtain ⟨tc, htc, hfo, hfh, hfl, hfc, hfv⟩ :=
    attachTimes_mem_of 0
      (generateData ⟨"pre", "organic", "extreme"⟩ c1SeedStream (constS (1/4))).length
      (generateData ⟨"pre", "organic", "extreme"⟩ c1SeedStream (constS (1/4))) 0 _
      (by rw [hD]; exact hmem)
  refine ⟨tc, htc, ?_, ?_⟩
  · rw [hfc, hclose]; norm_num
  · rw [hfo, hfl, hfc, hopen, hclose]
    calc min (5000 : ℝ) (-250) = -250 := by norm_num
      _ < 0 := by norm_num
      _ ≤ _ := hlow

/-- C1 (amended): for streams with draws in `[0, 1)`, every candle emitted by
`generate` — under every chart type, scenario and volatility — has a strictly
positive volume; and every candle of a pure pre-bonding chart additionally
satisfies `low ≥ 0` and `high ≥ max(open, close)`.  The remaining clauses of
the original claim (`low ≤ min(open, close)` and strictly positive prices)
are refuted by `c1_counterexample`: a pre-bonding close has no floor and can
go negative, after which the zero-clamped low exceeds it. -/
theorem c1_candle_bounds (opts : Options) (s u : RStream) (now : ℤ)
    (hs : ∀ k, 0 ≤ s k ∧ s k ≤ 1) (hu : ∀ k, 0 ≤ u k) :
    (∀ c ∈ (generate opts s u now).data, 0 < c.volume) ∧
    (opts.chartType = "pre" → ∀ c ∈ (generate opts s u now).data,
      0 ≤ c.low ∧ max c.open_ c.close ≤ c.high) := by
  have hdata : (generate opts s u now).data =
      attachTimes now (generateData opts s u).length 0 (generateData opts s u) := rfl
  constructor
  · intro c hc
    rw [hdata] at hc
    obtain ⟨c', hc', ho, hh, hl, hcl, hv⟩ := attachTimes_mem now _ _ 0 c hc
    rw [hv]
    exact generateData_volume opts s u hs hu c' hc'
  · intro hpre c hc
    rw [hdata] at hc
    obtain ⟨c', hc', ho, hh, hl, hcl, hv⟩ := attachTimes_mem now _ _ 0 c hc
    have hno : ¬(opts.chartType = "full" ∨ opts.chartType = "post") := by
      intro h
      rcases h with h | h <;> rw [hpre] at h <;> exact absurd h (by decide)
    have hD : generateData opts s u = (generatePreBonding opts.volatility s 0).1 := by
      unfold generateData
      dsimp only
      rw [if_pos (Or.inr hpre), if_neg hno]
    rw [hD] at hc'
    unfold generatePreBonding generatePreBondingWith at hc'
    dsimp only at hc'
    have hb := preGo_mem s marketPhases (preVol opts.volatility) _
      (fun k => (hs k).1) _ 0 ⟨0 + 1, INITIAL_MCAP, 0, 0, ssMean [50000, 150000]⟩
      (by rw [INITIAL_MCAP, BONDING_MCAP]; norm_num) c' hc'
    rw [hl, ho, hcl, hh]
    exact ⟨hb.2.1, hb.2.2⟩

/-- C1 witness: the amended bounds instantiated on a `"pre"` chart with the
constant-1/2 streams. -/
theorem c1_candle_bounds_witness :
    (∀ c ∈ (generate ⟨"pre", "organic", "medium"⟩ (constS (1/2)) (constS (1/2)) 0).data,
      0 < c.volume) ∧
    (∀ c ∈ (generate ⟨"pre", "organic", "medium"⟩ (constS (1/2)) (constS (1/2)) 0).data,
      0 ≤ c.low ∧ max c.open_ c.close ≤ c.high) := by
  have h := c1_candle_bounds ⟨"pre", "organic", "medium"⟩ (constS (1/2)) (constS (1/2)) 0
    (fun k => ⟨by norm_num [constS], by norm_num [constS]⟩)
    (fun k => by norm_num [constS])
  exact ⟨h.1, h.2 rfl⟩


theorem c2_first_candle :
    (100000 : ℝ) < (rugStep c2SeedStream (constS 0) 0.02 10 0 2 1 BONDING_MCAP).1.close ∧
    (100000 : ℝ) * 1.01 < (rugStep c2SeedStream (constS 0) 0.02 10 0 2 1 BONDING_MCAP).1.high := by
  simp only [rugStep]
  rw [if_pos (show (0 : ℕ) < 10 by norm_num), if_neg (show ¬(0 : ℕ) = 10 by norm_num)]
  unfold randomR
  rw [show c2SeedStream 2 = 9/10 by norm_num [c2SeedStream], INITIAL_MCAP, BONDING_MCAP]
  norm_num [constS, max_def]

set_option maxRecDepth 16000 in
/-- C2, counterexample: `generateInstantRug` applies no bonding-ceiling clamp
at all — starting a `"post"` chart at the 100000 threshold, its very first
(pre-rug) candle closes at `100000 * 1.026 = 102600 > 100000` and its high
also exceeds `100000 * 1.01`. -/
theorem c2_counterexample :
    ∃ c ∈ (generate ⟨"post", "instant_rug", "medium"⟩ c2SeedStream (constS 0) 0).data,
      100000 < c.close ∧ 100000 * 1.01 < c.high := by
  obtain ⟨hclose, hhigh⟩ := c2_first_candle
  have hD : generateData ⟨"post", "instant_rug", "medium"⟩ c2SeedStream (constS 0) =
      (rugGo c2SeedStream (constS 0) 0.02 10 500 0 2 1 BONDING_MCAP).1 := by
    unfold generateData
    dsimp only
    rw [if_neg (show ¬(("post" : String) = "full" ∨ ("post" : String) = "pre") by decide),
        if_pos (show ("post" : String) = "full" ∨ ("post" : String) = "post" by decide),
        if_neg (show ¬("instant_rug" : String) = "random" by decide),
        if_neg (show ¬("instant_rug" : String) = "random" by decide)]
    rw [if_neg (show ¬(0 < ([] : List Candle).length) by norm_num)]
    rw [List.nil_append]
    unfold generatePostBonding
    rw [if_neg (show ¬("instant_rug" : String) = "organic" by decide),
        if_neg (show ¬("instant_rug" : String) = "pump_dump" by decide),
        if_pos (show ("instant_rug" : String) = "instant_rug" from rfl)]
    dsimp only
    rw [show randomInt c2SeedStream 0 500 1500 = 500 by
          unfold randomInt; norm_num [c2SeedStream]]
    unfold generateInstantRug
    dsimp only
    rw [show randomInt c2SeedStream (0 + 1) 10 30 = 10 by
          unfold randomInt; norm_num [c2SeedStream]]
    rw [show rugVol "medium" = 0.02 by simp [rugVol]]
  have hmem : (rugStep c2SeedStream (constS 0) 0.02 10 0 2 1 BONDING_MCAP).1 ∈
      (rugGo c2SeedStream (constS 0) 0.02 10 500 0 2 1 BONDING_MCAP).1 := by
    rw [show (500 : ℕ) = 499 + 1 by norm_num, rugGo_succ]
    exact List.mem_cons_self _ _
  obtain ⟨tc, htc, hfo, hfh, hfl, hfc, hfv⟩ :=
    attachTimes_mem_of 0
      (generateData ⟨"post", "instant_rug", "medium"⟩ c2SeedStream (constS 0)).length
      (generateData ⟨"post", "instant_rug", "medium"⟩ c2SeedStream (constS 0)) 0 _
      (by rw [hD]; exact hmem)
  exact ⟨tc, htc, by rw [hfc]; exact hclose, by rw [hfh]; exact hhigh⟩

/-- C2 (amended): the ceiling discipline holds only for the organic and pump
& dump scenarios, and for pump & dump the close bound is `ceiling · 1.005`,
not the ceiling itself (a rejected pump candle is re-placed at
`ceiling * (0.995 + rng * 0.01)`, which exceeds the ceiling for `rng > 0.5`):
every organic candle has `close ≤ 100000` and `high ≤ 100000 · 1.005`, and
every pump & dump candle has `close ≤ 100000 · 1.005` and
`high ≤ 100000 · 1.01`.  The instant-rug, slow-bleed and consolidation
generators enforce no ceiling at all (`c2_counterexample`). -/
theorem c2_ceiling (startMcap : ℝ) (n : ℕ) (volatility : String) (s : RStream)
    (si : ℕ) (hs : ∀ k, s k ≤ 1) :
    (∀ c ∈ (generateOrganic startMcap n volatility s si).1,
      c.close ≤ BONDING_MCAP ∧ c.high ≤ BONDING_MCAP * 1.005) ∧
    (∀ c ∈ (generatePumpDump startMcap n volatility s si).1,
      c.close ≤ BONDING_MCAP * 1.005 ∧ c.high ≤ BONDING_MCAP * 1.01) := by
  constructor
  · intro c hc
    dsimp only [generateOrganic] at hc
    have h := organicGo_mem s _ _ 0 _ _ _ c hc
    exact ⟨h.2.1, h.2.2⟩
  · intro c hc
    dsimp only [generatePumpDump] at hc
    have h := pumpGo_mem s _ _ hs _ 0 _ _ _ c hc
    exact ⟨h.2.1, h.2.2⟩

/-- C2 witness: the organic and pump & dump bounds instantiated on the
constant-1/2 seeded stream. -/
theorem c2_ceiling_witness :
    (∀ c ∈ (generateOrganic 100000 600 "low" (constS (1/2)) 0).1,
      c.close ≤ BONDING_MCAP ∧ c.high ≤ BONDING_MCAP * 1.005) ∧
    (∀ c ∈ (generatePumpDump 100000 600 "low" (constS (1/2)) 0).1,
      c.close ≤ BONDING_MCAP * 1.005 ∧ c.high ≤ BONDING_MCAP * 1.01) :=
  c2_ceiling 100000 600 "low" (constS (1/2)) 0 (fun k => by norm_num [constS])

/-- C3 (amended): the pre-bonding, organic and pump & dump code paths read
only the seeded stream, so for those scenarios a fixed seeded stream
reproduces the candle sequence bit-for-bit whatever the unseeded stream does;
the instant-rug, slow-bleed and consolidation scenarios also consume
unseeded `Math.random()` draws that flow into the emitted candles (volumes,
wicks, the rally and breakout decisions), breaking reproducibility there
(`c3_counterexample`). -/
theorem c3_seeded_determinism (chartType volatility : String) (s u1 u2 : RStream)
    (now : ℤ) :
    (generate ⟨chartType, "organic", volatility⟩ s u1 now).data =
      (generate ⟨chartType, "organic", volatility⟩ s u2 now).data ∧
    (generate ⟨chartType, "pump_dump", volatility⟩ s u1 now).data =
      (generate ⟨chartType, "pump_dump", volatility⟩ s u2 now).data := by
  constructor <;>
    · unfold generate generateData generatePostBonding
      simp


theorem attachTimes_headD_volume (now : ℤ) (t : ℕ) (l : List Candle) (i : ℕ) :
    ((attachTimes now t i l).headD default).volume = (l.headD default).volume := by
  cases l with
  | nil => rfl
  | cons c cs => rfl

set_option maxRecDepth 16000 in
theorem c3_head_volume (u : RStream) :
    ((generate ⟨"post", "consolidation", "medium"⟩ c3SeedStream u 0).data.headD
        default).volume = 60000 + u 2 * 40000 := by
  have hD : generateData ⟨"post", "consolidation", "medium"⟩ c3SeedStream u =
      (consolGo c3SeedStream u 0.012 BONDING_MCAP (u 1) 500 350 500 0 (0 + 1)
        (1 + 1) BONDING_MCAP).1 := by
    unfold generateData
    dsimp only
    rw [if_neg (show ¬(("post" : String) = "full" ∨ ("post" : String) = "pre") by decide),
        if_pos (show ("post" : String) = "full" ∨ ("post" : String) = "post" by decide),
        if_neg (show ¬("consolidation" : String) = "random" by decide),
        if_neg (show ¬("consolidation" : String) = "random" by decide)]
    rw [if_neg (show ¬(0 < ([] : List Candle).length) by norm_num)]
    rw [List.nil_append]
    unfold generatePostBonding
    rw [if_neg (show ¬("consolidation" : String) = "organic" by decide),
        if_neg (show ¬("consolidation" : String) = "pump_dump" by decide),
        if_neg (show ¬("consolidation" : String) = "instant_rug" by decide),
        if_neg (show ¬("consolidation" : String) = "slow_bleed" by decide),
        if_pos (show ("consolidation" : String) = "consolidation" from rfl)]
    dsimp only
    rw [show randomInt c3SeedStream 0 500 1500 = 500 by
          unfold randomInt; norm_num [c3SeedStream]]
    unfold generateConsolidation
    dsimp only
    rw [show consolVol "medium" = 0.012 by simp [consolVol]]
  have hgen : (generate ⟨"post", "consolidation", "medium"⟩ c3SeedStream u 0).data =
      attachTimes 0
        (generateData ⟨"post", "consolidation", "medium"⟩ c3SeedStream u).length 0
        (generateData ⟨"post", "consolidation", "medium"⟩ c3SeedStream u) := rfl
  rw [hgen, attachTimes_headD_volume, hD]
  rw [show (500 : ℕ) = 499 + 1 by norm_num, consolGo_succ]
  show (consolStep c3SeedStream u 0.012 BONDING_MCAP (u 1) (499 + 1) 350 0
    (0 + 1) (1 + 1) BONDING_MCAP).1.volume = 60000 + u 2 * 40000
  simp only [consolStep]
  rw [if_pos (show (0 : ℕ) < 350 by norm_num)]

/-- C3, counterexample: with an identical seeded stream, two runs of
`generate` for the consolidation scenario whose unseeded `Math.random`
streams differ produce different candle sequences — already the first
candle's volume is `60000 + Math.random() * 40000`, an unseeded draw.  So not
every source of randomness that affects the emitted candles flows through
the seeded stream. -/
theorem c3_counterexample :
    (generate ⟨"post", "consolidation", "medium"⟩ c3SeedStream (constS 0) 0).data ≠
      (generate ⟨"post", "consolidation", "medium"⟩ c3SeedStream (constS (1/2)) 0).data := by
  intro h
  have h1 := c3_head_volume (constS 0)
  have h2 := c3_head_volume (constS (1/2))
  rw [h] at h1
  have h3 := h1.symm.trans h2
  norm_num [constS] at h3

/-! ### Instant-rug shape (claim C6) -/


theorem rugVol_bounds (volatility : String) :
    0.01 ≤ rugVol volatility ∧ rugVol volatility ≤ 0.04 := by
  unfold rugVol
  split_ifs <;> norm_num

theorem randomInt_bounds (s : RStream) (i lo hi : ℕ) (h0 : 0 ≤ s i) (h1 : s i < 1)
    (hlohi : lo ≤ hi) : lo ≤ randomInt s i lo hi ∧ randomInt s i lo hi ≤ hi := by
  unfold randomInt
  refine ⟨Nat.le_add_left lo _, ?_⟩
  have hM : ((hi : ℝ) - lo + 1) = ((hi - lo + 1 : ℕ) : ℝ) := by
    push_cast [hlohi]
    ring
  have hMpos : (0 : ℝ) < (hi : ℝ) - lo + 1 := by
    have : (lo : ℝ) ≤ hi := by exact_mod_cast hlohi
    linarith
  have hx : s i * ((hi : ℝ) - lo + 1) < ((hi - lo + 1 : ℕ) : ℝ) := by
    rw [← hM]
    nlinarith
  have hfl : ⌊s i * ((hi : ℝ) - lo + 1)⌋ < ((hi - lo + 1 : ℕ) : ℤ) := by
    rw [Int.floor_lt]
    exact_mod_cast hx
  have hnn : 0 ≤ ⌊s i * ((hi : ℝ) - lo + 1)⌋ :=
    Int.floor_nonneg.mpr (by nlinarith)
  omega

theorem get?_getD (l : List Candle) (j : ℕ) (h : j < l.length) :
    l.get? j = some (l.getD j default) := by
  rw [List.getD_eq_get?]
  cases hx : l.get? j with
  | none =>
      rw [List.get?_eq_none] at hx
      omega
  | some a => rfl

theorem rugStep_pre (s u : RStream) (vol : ℝ) (rugP i si ui : ℕ) (cur : ℝ)
    (hs0 : 0 ≤ s si) (hv : 0.01 ≤ vol ∧ vol ≤ 0.04) (hi : i < rugP) (hcur : 0 < cur) :
    0.98 ≤ ratio (rugStep s u vol rugP i si ui cur).1 ∧
    cur * (49/50) ≤ (rugStep s u vol rugP i si ui cur).2.2.2 := by
  have hneq : ¬ i = rugP := Nat.ne_of_lt hi
  have hch : (-(1 : ℝ)/50) ≤ randomR s si (-(vol * 0.5)) (vol * 1.5) := by
    unfold randomR
    nlinarith [hv.1, hv.2]
  constructor
  · unfold ratio
    simp only [rugStep, if_pos hi]
    rw [le_div_iff hcur]
    have h1 : cur * (1 + randomR s si (-(vol * 0.5)) (vol * 1.5)) ≤
        max (INITIAL_MCAP * 0.1) (cur * (1 + randomR s si (-(vol * 0.5)) (vol * 1.5))) :=
      le_max_right _ _
    nlinarith
  · simp only [rugStep, if_pos hi]
    have h1 : cur * (1 + randomR s si (-(vol * 0.5)) (vol * 1.5)) ≤
        max (INITIAL_MCAP * 0.1) (cur * (1 + randomR s si (-(vol * 0.5)) (vol * 1.5))) :=
      le_max_right _ _
    nlinarith

theorem rugStep_rug (s u : RStream) (vol : ℝ) (rugP si ui : ℕ) (cur : ℝ)
    (hs0 : 0 ≤ s si) (hcur : 10000/3 ≤ cur) :
    ratio (rugStep s u vol rugP rugP si ui cur).1 ≤ 0.15 := by
  have hlt : ¬ rugP < rugP := lt_irrefl rugP
  have hcur0 : (0 : ℝ) < cur := by linarith
  unfold ratio
  simp only [rugStep, if_neg hlt, eq_self_iff_true, if_true]
  rw [div_le_iff hcur0]
  refine max_le ?_ ?_
  · rw [INITIAL_MCAP]
    nlinarith
  · unfold randomR
    nlinarith

theorem rugStep_post (s u : RStream) (vol : ℝ) (rugP i si ui : ℕ) (cur : ℝ)
    (hs : 0 ≤ s si ∧ s si < 1) (hi : rugP < i) (hcur : 500 ≤ cur) :
    |ratio (rugStep s u vol rugP i si ui cur).1 - 1| ≤ 0.001 := by
  have h1 : ¬ i < rugP := by omega
  have h2 : ¬ i = rugP := by omega
  have hcur0 : (0 : ℝ) < cur := by linarith
  unfold ratio
  simp only [rugStep, if_neg h1, if_neg h2]
  have hchlo : -(0.001 : ℝ) ≤ randomR s si (-0.001) 0.001 := by
    unfold randomR
    nlinarith [hs.1]
  have hchhi : randomR s si (-0.001) 0.001 ≤ 0.001 := by
    unfold randomR
    nlinarith [hs.2]
  have hlo : 0.999 * cur ≤ max (INITIAL_MCAP * 0.1) (cur * (1 + randomR s si (-0.001) 0.001)) := by
    refine le_trans ?_ (le_max_right _ _)
    nlinarith
  have hhi : max (INITIAL_MCAP * 0.1) (cur * (1 + randomR s si (-0.001) 0.001)) ≤
      1.001 * cur := by
    refine max_le ?_ ?_
    · rw [INITIAL_MCAP]
      nlinarith
    · nlinarith
  rw [abs_le]
  constructor
  · have := (le_div_iff hcur0).mpr hlo
    linarith
  · have := (div_le_iff hcur0).mpr hhi
    linarith

theorem rugStep_next500 (s u : RStream) (vol : ℝ) (rugP i si ui : ℕ) (cur : ℝ) :
    500 ≤ (rugStep s u vol rugP i si ui cur).2.2.2 := by
  simp only [rugStep]
  refine le_trans ?_ (le_max_left _ _)
  rw [INITIAL_MCAP]
  norm_num

theorem rugGo_spec (s u : RStream) (vol : ℝ) (rugP : ℕ) (M0 : ℝ)
    (hs : ∀ k, 0 ≤ s k ∧ s k < 1) (hv : 0.01 ≤ vol ∧ vol ≤ 0.04)
    (hrug : rugP ≤ 30) (hM0 : 7000 ≤ M0) :
    ∀ fuel i si ui cur, (i ≤ rugP → M0 * (49/50 : ℝ) ^ i ≤ cur) →
      (rugP < i → 500 ≤ cur) →
      ∀ j c, (rugGo s u vol rugP fuel i si ui cur).1.get? j = some c →
        (i + j < rugP → ¬ ratio c ≤ 0.15) ∧
        (i + j = rugP → ratio c ≤ 0.15) ∧
        (rugP < i + j → |ratio c - 1| ≤ 0.001)
  | 0, i, si, ui, cur, h1, h2, j, c, hc => by simp [rugGo] at hc
  | fuel + 1, i, si, ui, cur, h1, h2, j, c, hc => by
      rw [rugGo_succ] at hc
      have hcurpos : i ≤ rugP → 0 < cur := by
        intro hile
        have hh := h1 hile
        have hp : (0 : ℝ) < M0 * (49/50) ^ i := by positivity
        linarith
      cases j with
      | zero =>
          obtain rfl : (rugStep s u vol rugP i si ui cur).1 = c := by simpa using hc
          refine ⟨?_, ?_, ?_⟩
          · intro hij
            have hip : i < rugP := by omega
            have h := rugStep_pre s u vol rugP i si ui cur (hs si).1 hv hip
              (hcurpos (le_of_lt hip))
            intro hle
            linarith [h.1]
          · intro hij
            have hieq : i = rugP := by omega
            subst hieq
            have hcur' : 10000/3 ≤ cur := by
              have hh := h1 (le_refl i)
              have hpow : (49/50 : ℝ) ^ 30 ≤ (49/50 : ℝ) ^ i :=
                pow_le_pow_of_le_one (by norm_num) (by norm_num) (by omega)
              have h30 : (10000/3 : ℝ) ≤ 7000 * (49/50 : ℝ) ^ 30 := by norm_num
              nlinarith [pow_nonneg (show (0:ℝ) ≤ 49/50 by norm_num) i]
            exact rugStep_rug s u vol i si ui cur (hs si).1 hcur'
          · intro hij
            have hip : rugP < i := by omega
            exact rugStep_post s u vol rugP i si ui cur (hs si) hip (h2 hip)
      | succ j' =>
          rw [List.get?_cons_succ] at hc
          have hinv1 : i + 1 ≤ rugP →
              M0 * (49/50 : ℝ) ^ (i + 1) ≤ (rugStep s u vol rugP i si ui cur).2.2.2 := by
            intro hi1
            have hip : i < rugP := by omega
            have h := rugStep_pre s u vol rugP i si ui cur (hs si).1 hv hip
              (hcurpos (le_of_lt hip))
            have hc1 := h1 (le_of_lt hip)
            calc M0 * (49/50 : ℝ) ^ (i + 1) = M0 * (49/50) ^ i * (49/50) := by ring
              _ ≤ cur * (49/50) := by nlinarith
              _ ≤ _ := h.2
          have hinv2 : rugP < i + 1 → 500 ≤ (rugStep s u vol rugP i si ui cur).2.2.2 :=
            fun _ => rugStep_next500 s u vol rugP i si ui cur
          have hrec := rugGo_spec s u vol rugP M0 hs hv hrug hM0 fuel (i + 1)
            (rugStep s u vol rugP i si ui cur).2.1
            (rugStep s u vol rugP i si ui cur).2.2.1
            (rugStep s u vol rugP i si ui cur).2.2.2 hinv1 hinv2 j' c hc
          refine ⟨?_, ?_, ?_⟩
          · intro hij; exact hrec.1 (by omega)
          · intro hij; exact hrec.2.1 (by omega)
          · intro hij; exact hrec.2.2 (by omega)

set_option maxRecDepth 16000 in
/-- C6 (amended): for any start capitalization ≥ 7000 and at least 31
candles, the instant-rug chart has exactly one index `r` with
`close/open ≤ 0.15`, namely the rug index, which is drawn from the
**inclusive** range `[10, 30]` (`randomInt(10, 30)`) — not `[10, 30)` as the
claim stated — and every candle after `r` satisfies `|close/open − 1| < 0.01`. -/
theorem c6_rug_shape (M0 : ℝ) (n : ℕ) (volatility : String) (s u : RStream)
    (si ui : ℕ) (hs : ∀ k, 0 ≤ s k ∧ s k < 1) (hM0 : 7000 ≤ M0) (hn : 31 ≤ n) :
    ∃ r, 10 ≤ r ∧ r ≤ 30 ∧ r < n ∧
      ratio ((generateInstantRug M0 n volatility s u si ui).1.getD r default) ≤ 0.15 ∧
      (∀ j, j < n →
        ratio ((generateInstantRug M0 n volatility s u si ui).1.getD j default) ≤ 0.15 →
        j = r) ∧
      (∀ j, r < j → j < n →
        |ratio ((generateInstantRug M0 n volatility s u si ui).1.getD j default) - 1|
          < 0.01) := by
  have hrb := randomInt_bounds s si 10 30 (hs si).1 (hs si).2 (by norm_num)
  have hL : (generateInstantRug M0 n volatility s u si ui).1 =
      (rugGo s u (rugVol volatility) (randomInt s si 10 30) n 0 (si + 1) ui M0).1 := rfl
  have hlen : (rugGo s u (rugVol volatility) (randomInt s si 10 30) n 0 (si + 1) ui M0).1.length
      = n := rugGo_length _ _ _ _ _ _ _ _ _
  have hspec := rugGo_spec s u (rugVol volatility) (randomInt s si 10 30) M0 hs
    (rugVol_bounds volatility) hrb.2 hM0 n 0 (si + 1) ui M0
    (fun _ => le_of_eq (by rw [pow_zero, mul_one]))
    (fun h => absurd h (by omega))
  refine ⟨randomInt s si 10 30, hrb.1, hrb.2, by omega, ?_, ?_, ?_⟩
  · have hg := get?_getD _ (randomInt s si 10 30) (by rw [hlen]; omega)
    have h := hspec (randomInt s si 10 30) _ hg
    rw [hL]
    exact h.2.1 (by omega)
  · intro j hj hle
    have hg := get?_getD _ j (by rw [hlen]; omega)
    have h := hspec j _ hg
    rw [hL] at hle
    by_contra hne
    rcases Nat.lt_or_ge j (randomInt s si 10 30) with hlt | hge
    · exact h.1 (by omega) hle
    · have h3 := h.2.2 (by omega)
      have := abs_le.mp h3
      linarith [this.1]
  · intro j hrj hjn
    have hg := get?_getD _ j (by rw [hlen]; omega)
    have h3 := (hspec j _ hg).2.2 (by omega)
    rw [hL]
    exact lt_of_le_of_lt h3 (by norm_num)

/-- C6 witness: the rug shape instantiated at start capitalization 100000,
31 candles and the constant-1/4 streams. -/
theorem c6_rug_shape_witness :
    ∃ r, 10 ≤ r ∧ r ≤ 30 ∧ r < 31 ∧
      ratio ((generateInstantRug 100000 31 "medium" (constS (1/4)) (constS (1/4)) 0 0).1.getD
        r default) ≤ 0.15 ∧
      (∀ j, j < 31 →
        ratio ((generateInstantRug 100000 31 "medium" (constS (1/4)) (constS (1/4)) 0 0).1.getD
          j default) ≤ 0.15 → j = r) ∧
      (∀ j, r < j → j < 31 →
        |ratio ((generateInstantRug 100000 31 "medium" (constS (1/4)) (constS (1/4)) 0 0).1.getD
          j default) - 1| < 0.01) :=
  c6_rug_shape 100000 31 "medium" (constS (1/4)) (constS (1/4)) 0 0
    (fun _ => ⟨by norm_num [constS], by norm_num [constS]⟩) (by norm_num) (by norm_num)


theorem c6_const_lemma :
    ∀ fuel i si ui (cur : ℝ), 1 ≤ si → cur = 100000 →
      ∀ j c, (rugGo c6SeedStream (constS 0) 0.02 30 fuel i si ui cur).1.get? j = some c →
        i + j < 30 → c.close = 100000 ∧ c.open_ = 100000
  | 0, i, si, ui, cur, hsi, hcur, j, c, hc, hij => by simp [rugGo] at hc
  | fuel + 1, i, si, ui, cur, hsi, hcur, j, c, hc, hij => by
      subst hcur
      rw [rugGo_succ] at hc
      have hs14 : c6SeedStream si = 1/4 := by
        unfold c6SeedStream
        rw [if_neg (by omega)]
      have hstep : (rugStep c6SeedStream (constS 0) 0.02 30 i si ui 100000).1.close = 100000 ∧
          (rugStep c6SeedStream (constS 0) 0.02 30 i si ui 100000).2.2.2 = 100000 := by
        have hi30 : i < 30 := by omega
        constructor <;>
        · simp only [rugStep, if_pos hi30]
          unfold randomR
          rw [hs14, INITIAL_MCAP]
          norm_num [max_def]
      cases j with
      | zero =>
          obtain rfl : (rugStep c6SeedStream (constS 0) 0.02 30 i si ui 100000).1 = c := by
            simpa using hc
          exact ⟨hstep.1, rfl⟩
      | succ j' =>
          rw [List.get?_cons_succ, hstep.2] at hc
          exact c6_const_lemma fuel (i + 1) (si + 1) (ui + 3) 100000 (by omega) rfl j' c hc
            (by omega)

set_option maxRecDepth 16000 in
/-- C6, counterexample: `randomInt(10, 30)` is inclusive of 30, so the rug
index can be 30, outside the claimed range `[10, 30)`.  With the rug at 30
and all pre-rug returns equal to zero, **no** index in `[10, 30)` has
`close/open ≤ 0.15`, refuting "there is exactly one such index in
`[10, 30)`". -/
theorem c6_counterexample :
    ¬ ∃ r, 10 ≤ r ∧ r < 30 ∧
      ratio ((generateInstantRug 100000 500 "medium" c6SeedStream (constS 0) 0 0).1.getD r
        default) ≤ 0.15 := by
  rintro ⟨r, hr10, hr30, hle⟩
  have hrug : randomInt c6SeedStream 0 10 30 = 30 := by
    unfold randomInt c6SeedStream
    norm_num
    decide
  have hL : (generateInstantRug 100000 500 "medium" c6SeedStream (constS 0) 0 0).1 =
      (rugGo c6SeedStream (constS 0) (rugVol "medium") (randomInt c6SeedStream 0 10 30)
        500 0 (0 + 1) 0 100000).1 := rfl
  rw [hL, hrug, show rugVol "medium" = 0.02 by simp [rugVol]] at hle
  have hlen : (rugGo c6SeedStream (constS 0) 0.02 30 500 0 (0 + 1) 0 100000).1.length = 500 :=
    rugGo_length _ _ _ _ _ _ _ _ _
  have hg := get?_getD (rugGo c6SeedStream (constS 0) 0.02 30 500 0 (0 + 1) 0 100000).1 r
    (by rw [hlen]; omega)
  have hconst := c6_const_lemma 500 0 (0 + 1) 0 100000 (by omega) rfl r _ hg (by omega)
  unfold ratio at hle
  rw [hconst.1, hconst.2] at hle
  norm_num at hle

end ChartGen
